import Mathlib

/-!
Verification development for the ARQV30 analysis-orchestration services.

This file gives a shallow embedding of the Python services
`src/services/comprehensive_report_generator.py` (the recursive deep
sanitizer `_deep_clean_data`, `_extract_safe_data` and
`generate_clean_report`) and `src/services/super_orchestrator.py`
(`execute_synchronized_analysis` and its helpers), and proves properties
of the embedded definitions.

Modelling conventions:
* Python values are modelled by the inductive type `Val`: `None`, bools,
  ints, strings (as `List Char`, i.e. sequences of code points), lists,
  dicts (association lists in insertion order; Python dicts have unique
  keys and preserve insertion order) and `other` for objects of any
  other type.  `other` carries `some s` where `s` is the object's `str()`
  rendering, or `none` for the exotic case of an object whose `str()`
  raises (the deep cleaner's bare `except` branch handles exactly that
  case).  Python floats do not occur in any claim and time values are
  modelled as integers.
* Recursion that Python bounds with a `current_depth > max_depth` guard is
  modelled structurally on the fuel `max_depth + 1 - current_depth`:
  fuel 0 is exactly the guard firing, and each recursive call passes
  `current_depth + 1`, i.e. one unit less fuel.
* Fallible Python code is modelled in `Except`; external best-effort
  sinks (`salvar_etapa` / `salvar_erro`), which the spec requires never
  to raise, are modelled as event logs carried in the result.
-/

namespace ARQV

/-- Python strings as sequences of code points. -/
abbrev PyStr := List Char

/-- JSON-like Python runtime value (see modelling conventions above). -/
inductive Val where
  | none : Val
  | bool (b : Bool) : Val
  | int (n : Int) : Val
  | str (s : PyStr) : Val
  | list (xs : List Val) : Val
  | dict (kvs : List (PyStr × Val)) : Val
  | other (r : Option PyStr) : Val

/-- A Python dict: association list in insertion order. -/
abbrev PyDict := List (PyStr × Val)

/-- Dict lookup (`d[k]` / `k in d`): first matching key. -/
def pyGet? : PyDict → PyStr → Option Val
  | [], _ => Option.none
  | kv :: tl, k => if kv.1 = k then some kv.2 else pyGet? tl k

/-- Python `d.get(k, dflt)`. -/
def pyGetD (kvs : PyDict) (k : PyStr) (dflt : Val) : Val :=
  (pyGet? kvs k).getD dflt

/-- Python `k in d`. -/
def pyHasKey (kvs : PyDict) (k : PyStr) : Bool :=
  (pyGet? kvs k).isSome

/-- Python `d[k] = v`: overwrite in place if the key exists, else append. -/
def pySet : PyDict → PyStr → Val → PyDict
  | [], k, v => [(k, v)]
  | kv :: tl, k, v => if kv.1 = k then (k, v) :: tl else kv :: pySet tl k v

/-- Lookup on a `Val` known to be a dict (`none` otherwise). -/
def vGet? (v : Val) (k : PyStr) : Option Val :=
  match v with
  | Val.dict kvs => pyGet? kvs k
  | _ => Option.none

/-- Python truthiness of a value. -/
def valTruthy : Val → Bool
  | Val.none => false
  | Val.bool b => b
  | Val.int n => n != 0
  | Val.str s => !s.isEmpty
  | Val.list xs => !xs.isEmpty
  | Val.dict kvs => !kvs.isEmpty
  | Val.other _ => true

/-- `isinstance(v, dict)`. -/
def isDictV : Val → Bool
  | Val.dict _ => true
  | _ => false

/-- `isinstance(v, str) and len(v) > 10000`: the oversized-string test of
`_deep_clean_data` (the 10000 cutoff is hard-coded in the source). -/
def isLongStr : Val → Bool
  | Val.str s => s.length > 10000
  | _ => false

/-!
## Deep sanitizer: `ComprehensiveReportGenerator._deep_clean_data`

Tree model.  `deep_clean_fuel` is `_deep_clean_data` with the depth
counter replaced by fuel `max_depth + 1 - current_depth` (fuel 0 is the
`current_depth > max_depth` guard).  The per-key / per-element
`except Exception` handlers of the source are unreachable: the recursive
call is a total function (as in Python, where the recursion only raises
via `str(obj)`, which the innermost bare `except` already converts to
the `"[Unserializable object]"` marker), so they are not represented.
-/

/-- The deny-list of `_deep_clean_data`. -/
def denyKeys : List PyStr :=
  ["circular_ref".data, "parent".data, "root".data, "_internal".data]

/-- The value returned when the depth guard fires. -/
def maxDepthMarker : Val := Val.dict [("error".data, Val.str "Max depth reached".data)]

/-- The truncation suffix appended to oversized dict-value strings. -/
def truncSuffix : PyStr := "... [truncated]".data

/-- `value[:10000] + "... [truncated]"`. -/
def truncStr (s : PyStr) : PyStr := s.take 10000 ++ truncSuffix

/-- Truncation applied to a `Val` (only strings are affected). -/
def truncVal : Val → Val
  | Val.str s => Val.str (truncStr s)
  | v => v

/-- `_deep_clean_data` on fuel `max_depth + 1 - current_depth`. -/
def deep_clean_fuel : Nat → Val → Val
  | 0, _ => maxDepthMarker
  | _ + 1, Val.none => Val.none
  | _ + 1, Val.bool b => Val.bool b
  | _ + 1, Val.int n => Val.int n
  | _ + 1, Val.str s => Val.str s
  | fuel + 1, Val.dict kvs =>
      Val.dict (kvs.filterMap (fun kv =>
        if kv.1 ∈ denyKeys then Option.none
        else if isLongStr kv.2 then some (kv.1, truncVal kv.2)
        else some (kv.1, deep_clean_fuel fuel kv.2)))
  | fuel + 1, Val.list xs => Val.list ((xs.take 50).map (deep_clean_fuel fuel))
  | _ + 1, Val.other r =>
      match r with
      | some s => Val.str (s.take 1000)
      | Option.none => Val.str "[Unserializable object]".data

/-- `_deep_clean_data(v, max_depth, current_depth)` (defaults 10 and 0). -/
def deep_clean_data (v : Val) (maxDepth : Nat := 10) (currentDepth : Nat := 0) : Val :=
  deep_clean_fuel (maxDepth + 1 - currentDepth) v

/-- The treatment `_deep_clean_data` applies to one dict value at the
given remaining fuel: oversized strings are truncated in place, anything
else is recursively cleaned. -/
def cleanValD (fuel : Nat) (v : Val) : Val :=
  if isLongStr v then truncVal v else deep_clean_fuel fuel v

/-- The treatment `_deep_clean_data` applies to one dict entry: deny-listed
keys are dropped, remaining values get `cleanValD`. -/
def cleanPair (fuel : Nat) (kv : PyStr × Val) : Option (PyStr × Val) :=
  if kv.1 ∈ denyKeys then Option.none else some (kv.1, cleanValD fuel kv.2)

/-!
## Deep sanitizer: heap model

Python objects live on a heap and may form cycles (self-referential
structures built by aliasing); the tree type `Val` cannot express those.
`deep_clean_heap_fuel` is the same transcription of `_deep_clean_data`,
but over an arbitrary heap of nodes whose children are references
(`Nat` addresses).  Nothing constrains the heap: cyclic heaps are
allowed, and the function is total on them because the recursion is
structural on the depth fuel — exactly the reason the Python function
terminates on self-referential input.
-/

/-- A heap node: like `Val` but with children by reference. -/
inductive HNode where
  | none : HNode
  | bool (b : Bool) : HNode
  | int (n : Int) : HNode
  | str (s : PyStr) : HNode
  | list (xs : List Nat) : HNode
  | dict (kvs : List (PyStr × Nat)) : HNode
  | other (r : Option PyStr) : HNode

/-- A heap: every address holds a node.  Cycles are permitted. -/
def Heap := Nat → HNode

/-- `_deep_clean_data` over a heap, structural on the depth fuel. -/
def deep_clean_heap_fuel (h : Heap) : Nat → Nat → Val
  | 0, _ => maxDepthMarker
  | fuel + 1, r =>
      match h r with
      | HNode.none => Val.none
      | HNode.bool b => Val.bool b
      | HNode.int n => Val.int n
      | HNode.str s => Val.str s
      | HNode.dict kvs =>
          Val.dict (kvs.filterMap (fun kv =>
            if kv.1 ∈ denyKeys then Option.none
            else match h kv.2 with
              | HNode.str s =>
                  if s.length > 10000 then some (kv.1, Val.str (truncStr s))
                  else some (kv.1, deep_clean_heap_fuel h fuel kv.2)
              | _ => some (kv.1, deep_clean_heap_fuel h fuel kv.2)))
      | HNode.list xs => Val.list ((xs.take 50).map (deep_clean_heap_fuel h fuel))
      | HNode.other (some s) => Val.str (s.take 1000)
      | HNode.other Option.none => Val.str "[Unserializable object]".data

/-- `_deep_clean_data(heap object at r, max_depth)` from depth 0. -/
def deep_clean_heap (h : Heap) (r : Nat) (maxDepth : Nat := 10) : Val :=
  deep_clean_heap_fuel h (maxDepth + 1) r

/-!
## Output-shape predicates
-/

/-- Nesting depth at most `n`: scalars (and `other`) are depth 0,
containers add one level. -/
def depthLe : Nat → Val → Bool
  | _, Val.none => true
  | _, Val.bool _ => true
  | _, Val.int _ => true
  | _, Val.str _ => true
  | _, Val.other _ => true
  | 0, Val.list _ => false
  | 0, Val.dict _ => false
  | n + 1, Val.list xs => xs.all (depthLe n)
  | n + 1, Val.dict kvs => kvs.all (fun kv => depthLe n kv.2)

/-- Composed only of scalars, mappings and sequences (no `other` nodes),
with nesting depth at most `n`. -/
def dataOnlyDepthLe : Nat → Val → Bool
  | _, Val.none => true
  | _, Val.bool _ => true
  | _, Val.int _ => true
  | _, Val.str _ => true
  | _, Val.other _ => false
  | 0, Val.list _ => false
  | 0, Val.dict _ => false
  | n + 1, Val.list xs => xs.all (dataOnlyDepthLe n)
  | n + 1, Val.dict kvs => kvs.all (fun kv => dataOnlyDepthLe n kv.2)

/-- No deny-listed key occurs as a mapping key anywhere in the value. -/
inductive DeniedFree : Val → Prop where
  | none : DeniedFree Val.none
  | bool (b : Bool) : DeniedFree (Val.bool b)
  | int (n : Int) : DeniedFree (Val.int n)
  | str (s : PyStr) : DeniedFree (Val.str s)
  | other (r : Option PyStr) : DeniedFree (Val.other r)
  | list {xs : List Val} (h : ∀ x ∈ xs, DeniedFree x) : DeniedFree (Val.list xs)
  | dict {kvs : List (PyStr × Val)}
      (hk : ∀ kv ∈ kvs, kv.1 ∉ denyKeys)
      (hv : ∀ kv ∈ kvs, DeniedFree kv.2) : DeniedFree (Val.dict kvs)

/-- Length of a value that is a list. -/
def valListLength : Val → Option Nat
  | Val.list xs => some xs.length
  | _ => Option.none

/-- A chain of nested one-key dicts of the given depth, ending in a scalar. -/
def dictChain : Nat → Val
  | 0 => Val.int 7
  | n + 1 => Val.dict [("k".data, dictChain n)]

/-!
## `SuperOrchestrator` (`super_orchestrator.py`)

The four pipeline stages call content providers.  Two of them
(`ultra_detailed_analysis_engine.generate_gigantic_analysis` and
`enhanced_orchestrator.execute_ultra_enhanced_analysis`) are external
collaborators absent from the repository; the other two
(`sales_funnel_analyzer`, `strategic_insights_generator`) are present but
wrap their whole body in `try/except` fallbacks.  The claims quantify
over provider behaviour ("if the provider of stage X raises ..."), so the
orchestrator model is parametrised by each provider's outcome: a normal
return value or a raised exception (`Except String Val`, the `String`
being `str(e)`).

The best-effort sinks `salvar_etapa` / `salvar_erro` are modelled as
event logs (the spec fixes them as never raising); the progress callback
is modelled by whether it is present and on which invocation steps it
raises.  `datetime.now()` / `time.time()` values are opaque parameters.
-/

/-- The progress callback: absent, or a function telling for each step
number whether the callback raises on that invocation. -/
abbrev Cb := Option (Nat → Bool)

/-- Whether `progress_callback(step, ...)` raises: absent callbacks are
never called, so never raise. -/
def cbRaises (cb : Cb) (step : Nat) : Bool :=
  match cb with
  | some f => f step
  | Option.none => false

/-- Outcome of each of the four content providers for this run. -/
structure Providers where
  base : Except String Val
  enhanced : Except String Val
  funnel : Except String Val
  insights : Except String Val

/-- Opaque clock values for one run. -/
structure TimeEnv where
  startTime : Int
  elapsed : Int
  nowIso : PyStr
  nowFmt : PyStr

/-- The per-session record held in `self.execution_state[session_id]`. -/
structure SessionState where
  status : String
  startTime : Int
  errors : List Val
  executionTime : Option Int
  errorMsg : Option String

/-- Observable outcome of one `execute_synchronized_analysis` run:
the returned value, the final session state, the ordered list of writes
to the session's `status` field, and the names passed to the
`salvar_erro` / `salvar_etapa` sinks, in order. -/
structure RunOutput where
  result : Val
  state : SessionState
  statusWrites : List String
  errSink : List String
  etapaSink : List String

/-- Python `str()` as used by f-string interpolation.  Scalars render
faithfully; containers render as a fixed placeholder (no claim depends on
the rendered text of a container); `none` is the object whose `str()`
raises. -/
def pyStr? : Val → Option PyStr
  | Val.none => some "None".data
  | Val.bool true => some "True".data
  | Val.bool false => some "False".data
  | Val.int n => some (toString n).data
  | Val.str s => some s
  | Val.list _ => some "[python-list]".data
  | Val.dict _ => some "[python-dict]".data
  | Val.other (some r) => some r
  | Val.other Option.none => Option.none

/-- Python `str.lower()`. -/
def pyLower (s : PyStr) : PyStr := s.map Char.toLower

/-- `_create_simple_copy` on fuel `max_depth + 1 - current_depth`
(defaults: `max_depth = 3`).  Dicts keep their first 20 entries, lists
their first 10 elements; other objects become `str(obj)[:500]`, which
raises if `str(obj)` raises (there is no handler in the source). -/
def create_simple_copy_fuel : Nat → Val → Except String Val
  | 0, _ => Except.ok (Val.str "[Max depth reached]".data)
  | _ + 1, Val.none => Except.ok Val.none
  | _ + 1, Val.bool b => Except.ok (Val.bool b)
  | _ + 1, Val.int n => Except.ok (Val.int n)
  | _ + 1, Val.str s => Except.ok (Val.str s)
  | fuel + 1, Val.dict kvs =>
      ((kvs.take 20).mapM (fun kv =>
        (create_simple_copy_fuel fuel kv.2).map (fun c => (kv.1, c)))).map Val.dict
  | fuel + 1, Val.list xs =>
      ((xs.take 10).mapM (create_simple_copy_fuel fuel)).map Val.list
  | _ + 1, Val.other (some s) => Except.ok (Val.str (s.take 500))
  | _ + 1, Val.other Option.none => Except.error "TypeError: str raised"

/-- `_create_simple_copy(obj)` with the default `max_depth=3`. -/
def create_simple_copy (v : Val) : Except String Val :=
  create_simple_copy_fuel 4 v

/-- `_safe_combine_data`: copies the request and merges in bounded copies
of an allow-list of fields of the base analysis; a per-field failure
skips that field only. -/
def safe_combine_data (data : PyDict) (base : Val) : PyDict :=
  if valTruthy base && isDictV base then
    ["pesquisa_web_massiva".data, "avatar_ultra_detalhado".data,
     "metadata_gigante".data].foldl (fun acc field =>
      match vGet? base field with
      | some v =>
          match create_simple_copy v with
          | Except.ok c => pySet acc field c
          | Except.error _ => acc
      | Option.none => acc) data
  else data

/-- `_combine_all_analyses`: enriches the request with fields of the
three earlier analyses; `.get` on a truthy non-dict raises, in which case
the `except` returns the original request unchanged. -/
def combine_all_analyses (b e f : Val) (data : PyDict) : PyDict :=
  let attempt : Except Unit PyDict := do
    let acc := data
    let acc ← (if valTruthy b then
        match b with
        | Val.dict bd =>
            Except.ok (pySet (pySet acc "mercado".data
              (pyGetD bd "pesquisa_web_massiva".data (Val.dict [])))
              "avatar".data (pyGetD bd "avatar_ultra_detalhado".data (Val.dict [])))
        | _ => Except.error ()
      else Except.ok acc)
    let acc ← (if valTruthy e then
        match e with
        | Val.dict ed =>
            Except.ok (pySet acc "psicologia".data
              (pyGetD ed "consolidated_analysis".data (Val.dict [])))
        | _ => Except.error ()
      else Except.ok acc)
    let acc ← (if valTruthy f then
        match f with
        | Val.dict fd =>
            Except.ok (pySet acc "funil".data
              (pyGetD fd "funil_conversao".data (Val.dict [])))
        | _ => Except.error ()
      else Except.ok acc)
    Except.ok acc
  match attempt with
  | Except.ok r => r
  | Except.error _ => data

/-- `_create_fallback_analysis`: the static fallback used when the base
stage fails.  `segmento.lower()` raises `AttributeError` when the
request's `segmento` value is not a string. -/
def create_fallback_analysis (data : PyDict) (tenv : TimeEnv) : Except String Val :=
  let segmento := pyGetD data "segmento".data (Val.str "Empreendedores".data)
  let produto := pyGetD data "produto".data (Val.str "Programa MASI".data)
  match segmento with
  | Val.str segs =>
      Except.ok (Val.dict [
        ("tipo_analise".data, Val.str "FALLBACK_ROBUSTO".data),
        ("projeto_dados".data, Val.dict data),
        ("analise_mercado".data, Val.dict [
          ("segmento".data, Val.str segs),
          ("produto".data, produto),
          ("status".data, Val.str "Análise básica robusta".data),
          ("tendencias".data, Val.list [
            Val.str ("Crescimento do mercado de ".data ++ pyLower segs ++ " no Brasil".data),
            Val.str "Digitalização acelerada pós-pandemia".data,
            Val.str "Demanda por soluções personalizadas".data,
            Val.str "Foco em resultados mensuráveis".data]),
          ("oportunidades".data, Val.list [
            Val.str "Nichos específicos com menor concorrência".data,
            Val.str "Soluções híbridas online/offline".data,
            Val.str "Parcerias estratégicas".data,
            Val.str "Expansão geográfica gradual".data])]),
        ("avatar_basico".data, Val.dict [
          ("perfil".data, Val.str ("Profissional de ".data ++ segs)),
          ("dores_principais".data, Val.list [
            Val.str "Falta de direcionamento estratégico".data,
            Val.str "Dificuldade de escalar negócio".data,
            Val.str "Sobrecarga operacional".data]),
          ("desejos_centrais".data, Val.list [
            Val.str "Crescimento sustentável".data,
            Val.str "Mais liberdade operacional".data,
            Val.str "Reconhecimento no mercado".data])]),
        ("metadata_fallback".data, Val.dict [
          ("engine".data, Val.str "FALLBACK ROBUSTO v1.0".data),
          ("generated_at".data, Val.str tenv.nowIso),
          ("quality_level".data, Val.str "BÁSICO_FUNCIONAL".data)])])
  | _ => Except.error "AttributeError: lower"

/-- The block of recommended next steps inside the executive summary. -/
def next_steps_block : PyStr :=
  ("### 🎯 PRÓXIMOS PASSOS RECOMENDADOS\n" ++
   "1. Revisar avatar e ajustar estratégia de comunicação\n" ++
   "2. Implementar abordagens baseadas nos insights descobertos\n" ++
   "3. Monitorar métricas de performance\n" ++
   "4. Otimizar estratégia baseado em resultados\n").data

/-- The part of the executive summary before the next-steps block. -/
def summary_head (b e f i : Val) (segs prods nowFmt : PyStr) : PyStr :=
  let ql : PyStr :=
    if valTruthy e then "PREMIUM".data else if valTruthy b then "HIGH".data else "BASIC".data
  "\n# SUMÁRIO EXECUTIVO - ANÁLISE ULTRA ROBUSTA\n## Segmento: ".data ++ segs ++
  "\n## Produto/Serviço: ".data ++ prods ++
  "\n## Data: ".data ++ nowFmt ++
  "\n## Nível de Qualidade: ".data ++ ql ++
  "\n\n### ✅ COMPONENTES ANALISADOS\n- Análise de Mercado: ".data ++
  (if valTruthy b then "✅ Completa".data else "⚠️ Básica".data) ++
  "\n- Avatar Detalhado: ".data ++
  (if valTruthy b then "✅ Completo".data else "⚠️ Básico".data) ++
  "\n- Análise Psicológica: ".data ++
  (if valTruthy e then "✅ Completa".data else "⚠️ Não disponível".data) ++
  "\n- Funil de Vendas: ".data ++
  (if valTruthy f then "✅ Completo".data else "⚠️ Não disponível".data) ++
  "\n- Insights Estratégicos: ".data ++
  (if valTruthy i then "✅ Completos".data else "⚠️ Não disponível".data) ++
  "\n- Estratégia de Implementação: ✅ Incluída\n- Plano de Ação: ✅ Pronto para uso\n\n".data

/-- The part of the executive summary after the next-steps block. -/
def summary_tail : PyStr :=
  ("\n### 💪 GARANTIAS DE QUALIDADE\n" ++
   "- Sistema ultra robusto que nunca falha completamente\n" ++
   "- Sempre entrega análise funcional e aplicável\n" ++
   "- Dados salvos automaticamente para recuperação\n" ++
   "- Processo completamente auditável\n").data

/-- `_generate_executive_summary`: the markdown summary string.  Raises
only if `str()` of the request's `segmento` / `produto` value raises. -/
def generate_executive_summary (b e f i : Val) (data : PyDict) (nowFmt : PyStr) :
    Except String PyStr :=
  let segmento := pyGetD data "segmento".data (Val.str "Empreendedores".data)
  let produto := pyGetD data "produto".data (Val.str "Programa MASI".data)
  match pyStr? segmento, pyStr? produto with
  | some segs, some prods =>
      Except.ok (summary_head b e f i segs prods nowFmt ++ (next_steps_block ++ summary_tail))
  | _, _ => Except.error "TypeError: str raised"

/-- A `[(key, v)]` segment present only when the stage value is set. -/
def optPair (key : PyStr) (v? : Option Val) : PyDict :=
  match v? with
  | some c => [(key, c)]
  | Option.none => []

/-- The "include a bounded copy of this analysis if it is a truthy dict"
step of `_consolidate_results_robustly`. -/
def includeIf (v : Val) : Except String (Option Val) :=
  if valTruthy v && isDictV v then (create_simple_copy v).map some
  else Except.ok Option.none

/-- The fixed header entries of the consolidated report. -/
def consolidatedHeader (sid : PyStr) (tenv : TimeEnv) : PyDict :=
  [("session_id".data, Val.str sid),
   ("generated_at".data, Val.str tenv.nowIso),
   ("engine_version".data, Val.str "ARQV30 Enhanced v3.0 - ULTRA ROBUST".data),
   ("consolidation_status".data, Val.str "SUCCESS".data)]

def consolidate_results_robustly (b e f i : Val) (data : PyDict) (sid : PyStr)
    (tenv : TimeEnv) : Except String Val :=
  match includeIf b with
  | Except.error m => Except.error m
  | Except.ok base? =>
  match includeIf e with
  | Except.error m => Except.error m
  | Except.ok enh? =>
  match includeIf f with
  | Except.error m => Except.error m
  | Except.ok fun? =>
  match includeIf i with
  | Except.error m => Except.error m
  | Except.ok ins? =>
  match create_simple_copy (Val.dict data) with
  | Except.error m => Except.error m
  | Except.ok dados =>
  match generate_executive_summary b e f i data tenv.nowFmt with
  | Except.error m => Except.error m
  | Except.ok sumario =>
  Except.ok (Val.dict (
    consolidatedHeader sid tenv ++
    optPair "analise_base".data base? ++
    optPair "analise_aprimorada".data enh? ++
    optPair "analise_funil".data fun? ++
    optPair "insights_estrategicos".data ins? ++
    [("dados_originais".data, dados),
     ("sumario_executivo".data, Val.str sumario)]))

/-- `_generate_minimal_success_report`: the emergency result produced by
the outermost handler; always `success=True`. -/
def generate_minimal_success_report (data : PyDict) (sid : PyStr) (err : String)
    (tenv : TimeEnv) : Val :=
  Val.dict [
    ("success".data, Val.bool true),
    ("session_id".data, Val.str sid),
    ("execution_mode".data, Val.str "EMERGENCY_SUCCESS".data),
    ("report".data, Val.dict [
      ("segmento".data, pyGetD data "segmento".data (Val.str "Não especificado".data)),
      ("produto".data, pyGetD data "produto".data (Val.str "Não especificado".data)),
      ("status".data, Val.str "Análise de emergência concluída com sucesso".data),
      ("recomendacao_principal".data,
        Val.str "Execute nova análise com configurações verificadas".data),
      ("proximos_passos".data, Val.list [
        Val.str "Verificar configuração de APIs".data,
        Val.str "Testar conectividade de internet".data,
        Val.str "Executar análise simples primeiro".data,
        Val.str "Contatar suporte se problemas persistirem".data]),
      ("dados_salvos".data, Val.bool true)]),
    ("error_handled".data, Val.str err.data),
    ("generated_at".data, Val.str tenv.nowIso),
    ("guarantee".data,
      Val.str "Sistema sempre funciona - análise mínima sempre entregue".data)]

/-- The successful top-level return value of `execute_synchronized_analysis`. -/
def mk_success_result (sid : PyStr) (tenv : TimeEnv) (report : Val) (enhanced : Val) : Val :=
  Val.dict [
    ("success".data, Val.bool true),
    ("session_id".data, Val.str sid),
    ("execution_time".data, Val.int tenv.elapsed),
    ("report".data, report),
    ("sync_status".data, Val.str "ULTRA_ROBUST_SUCCESS".data),
    ("quality_level".data,
      Val.str (if valTruthy enhanced then "PREMIUM".data else "HIGH".data))]

/-- FASE 1: base analysis with its stage boundary.  A raise inside the
stage `try` (step-2 callback or the provider) substitutes the static
fallback and records `analise_base_falhou`; if building the fallback
itself raises, that exception escapes the stage (it occurs inside the
`except` handler, before `salvar_erro` is reached). -/
def run_fase1 (data : PyDict) (cb : Cb) (pr : Providers) (tenv : TimeEnv) :
    Except String (Val × List String × List String) :=
  match (if cbRaises cb 2 then Except.error "progress_callback raised" else pr.base :
      Except String Val) with
  | Except.ok v => Except.ok (v, [], ["analise_base_robusta"])
  | Except.error _ =>
      match create_fallback_analysis data tenv with
      | Except.ok fb => Except.ok (fb, ["analise_base_falhou"], [])
      | Except.error m => Except.error m

/-- One of the stage boundaries of FASES 2-4: on success the value is
kept and a `salvar_etapa` event emitted; on any raise the value is left
as `None` and a `salvar_erro` event emitted.  Never propagates. -/
def run_stage (attempt : Except String Val) (okEtapa errName : String) :
    Val × List String × List String :=
  match attempt with
  | Except.ok v => (v, [], [okEtapa])
  | Except.error _ => (Val.none, [errName], [])

/-- FASE 2 stage boundary (value stays `None` on failure).  The combined
request+base context fed to the provider is built with
`safe_combine_data`; the provider's outcome itself is the model
parameter `pr.enhanced`. -/
def fase2_of (cb : Cb) (pr : Providers) : Val × List String × List String :=
  run_stage
    (if cbRaises cb 8 then Except.error "progress_callback raised" else pr.enhanced)
    "analise_psicologica_robusta" "analise_psicologica_falhou"

/-- FASE 3 stage boundary (sales funnel analysis). -/
def fase3_of (cb : Cb) (pr : Providers) : Val × List String × List String :=
  run_stage
    (if cbRaises cb 10 then Except.error "progress_callback raised" else pr.funnel)
    "analise_funil_vendas" "analise_funil_falhou"

/-- FASE 4 stage boundary (strategic insights). -/
def fase4_of (cb : Cb) (pr : Providers) : Val × List String × List String :=
  run_stage
    (if cbRaises cb 11 then Except.error "progress_callback raised" else pr.insights)
    "insights_estrategicos" "insights_estrategicos_falhou"

/-- The base-analysis value after FASE 1 succeeded (provider value or
fallback); `None` only in the escape case where FASE 1 itself raised. -/
def fase1_val (data : PyDict) (cb : Cb) (pr : Providers) (tenv : TimeEnv) : Val :=
  match run_fase1 data cb pr tenv with
  | Except.ok t => t.1
  | Except.error _ => Val.none

/-- The body of the outermost `try` of `execute_synchronized_analysis`
(after the session state is registered as `running`).  An uncaught
exception carries `str(e)` plus the sink events emitted before it was
raised.  Progress-callback invocations at steps 2, 8, 10 and 11 sit
inside the per-stage `try` blocks (a raise there fails that stage); the
invocations at steps 1, 12 and 15 are outside every stage boundary. -/
def execute_synchronized_analysis_body (data : PyDict) (sid : PyStr) (cb : Cb)
    (pr : Providers) (tenv : TimeEnv) :
    Except (String × List String × List String) (Val × List String × List String) :=
  if cbRaises cb 1 then Except.error ("progress_callback raised", [], []) else
  match run_fase1 data cb pr tenv with
  | Except.error m => Except.error (m, [], [])
  | Except.ok (base_analysis, err1, et1) =>
  -- FASE 2: the combined context is computed, then the stage runs
  let _combined := safe_combine_data data base_analysis
  let p2 := fase2_of cb pr
  -- FASE 3
  let _combined3 := safe_combine_data data base_analysis
  let p3 := fase3_of cb pr
  -- FASE 4
  let _combinedAll := combine_all_analyses base_analysis p2.1 p3.1 data
  let p4 := fase4_of cb pr
  let errs := err1 ++ p2.2.1 ++ p3.2.1 ++ p4.2.1
  let ets := et1 ++ p2.2.2 ++ p3.2.2 ++ p4.2.2
  -- FASE 5: consolidation (progress step 12 is outside any stage `try`)
  if cbRaises cb 12 then Except.error ("progress_callback raised", errs, ets) else
  match consolidate_results_robustly base_analysis p2.1 p3.1 p4.1 data sid tenv with
  | Except.error m => Except.error (m, errs, ets)
  | Except.ok final_results =>
  -- FASE 6: safe saving (progress step 15 is outside any stage `try`)
  if cbRaises cb 15 then Except.error ("progress_callback raised", errs, ets) else
  Except.ok (mk_success_result sid tenv final_results p2.1, errs,
    ets ++ ["resultado_final_completas", "resultado_final_reports",
            "resultado_final_analise_completa"])

/-- `execute_synchronized_analysis`: registers the session as `running`,
runs the body, and converts an uncaught exception into the
`completed_with_errors` state plus the minimal-but-successful report.
Total: no exception reaches the caller. -/
def execute_synchronized_analysis (data : PyDict) (sid : PyStr) (cb : Cb)
    (pr : Providers) (tenv : TimeEnv) : RunOutput :=
  match execute_synchronized_analysis_body data sid cb pr tenv with
  | Except.ok (res, es, ts) =>
      { result := res
        state := { status := "completed", startTime := tenv.startTime, errors := [],
                   executionTime := some tenv.elapsed, errorMsg := Option.none }
        statusWrites := ["running", "completed"]
        errSink := es
        etapaSink := ts }
  | Except.error (m, es, ts) =>
      { result := generate_minimal_success_report data sid m tenv
        state := { status := "completed_with_errors", startTime := tenv.startTime,
                   errors := [], executionTime := Option.none, errorMsg := some m }
        statusWrites := ["running", "completed_with_errors"]
        errSink := es ++ ["super_orchestrator_critico"]
        etapaSink := ts }

/-!
## `ComprehensiveReportGenerator` (`comprehensive_report_generator.py`)
-/

/-- Shorthand: a Python string literal as a `Val`. -/
def S (s : String) : Val := Val.str s.data

/-- Shorthand: a Python list of string literals as a `Val`. -/
def SL (ss : List String) : Val := Val.list (ss.map fun s => Val.str s.data)

/-- Rendering of an already-sanitized value in an f-string; sanitized
values contain no raw objects, so the fallback default is unreachable. -/
def pyFmt (v : Val) : PyStr := (pyStr? v).getD "[unprintable]".data

/-- Python `v > 0` as used on `pesquisa.get('total_resultados', 0)`:
defined for numbers (`True`/`False` count as 1/0), raises otherwise. -/
def pyGtZero? : Val → Except Unit Bool
  | Val.int n => Except.ok (n > 0)
  | Val.bool b => Except.ok b
  | _ => Except.error ()

/-- `_extract_safe_data`: sequentially fills the defaults from the
cleaned analysis data inside one `try`; an exception part-way keeps the
fields assigned so far (`except: pass` then `return safe_data`). -/
def extract_safe_data (data : PyDict) : PyDict :=
  let acc0 : PyDict := [
    ("segmento".data, S "Empreendedores"),
    ("produto".data, S "Programa MASI"),
    ("has_research".data, Val.bool false),
    ("processing_time".data, S "N/A")]
  let step : Except PyDict PyDict := do
    let a ← (match pyGet? data "projeto_dados".data with
      | Option.none => Except.ok acc0
      | some (Val.dict pd) =>
          let a1 := pySet acc0 "segmento".data
            (pyGetD pd "segmento".data (pyGetD acc0 "segmento".data Val.none))
          Except.ok (pySet a1 "produto".data
            (pyGetD pd "produto".data (pyGetD a1 "produto".data Val.none)))
      | some _ => Except.error acc0)
    let a ← (match pyGet? data "pesquisa_web_massiva".data with
      | some (Val.dict pq) =>
          (match pyGtZero? (pyGetD pq "total_resultados".data (Val.int 0)) with
           | Except.ok true =>
               let a1 := pySet a "has_research".data (Val.bool true)
               Except.ok (pySet a1 "research_sources".data
                 (pyGetD pq "total_resultados".data (Val.int 0)))
           | Except.ok false => Except.ok a
           | Except.error _ => Except.error a)
      | _ => Except.ok a)
    let a ← (match pyGet? data "metadata_gigante".data with
      | Option.none => Except.ok a
      | some (Val.dict md) =>
          Except.ok (pySet a "processing_time".data
            (pyGetD md "processing_time_formatted".data (S "N/A")))
      | some _ => Except.error a)
    let a := if pyHasKey data "agentes_psicologicos_detalhados".data then
        pySet a "has_psychological_analysis".data (Val.bool true) else a
    let a := if pyHasKey data "analise_funil".data then
        pySet a "has_funnel_analysis".data (Val.bool true) else a
    let a := if pyHasKey data "insights_estrategicos".data then
        pySet a "has_strategic_insights".data (Val.bool true) else a
    Except.ok a
  match step with
  | Except.ok a => a
  | Except.error a => a

/-- `_create_detailed_avatar` (static content parametrised by segment). -/
def create_detailed_avatar (data : PyDict) : Val :=
  Val.dict [
    ("identificacao".data, Val.dict [
      ("perfil".data, S "Empreendedor Ambicioso"),
      ("faixa_etaria".data, S "30-45 anos"),
      ("nivel_experiencia".data, S "Intermediário a Avançado"),
      ("contexto".data, Val.str ("Profissional do segmento de ".data ++
        pyFmt (pyGetD data "segmento".data (S "empreendedorismo"))))]),
    ("dores_principais".data, SL [
      "Falta de direcionamento estratégico claro",
      "Dificuldade em escalar o negócio de forma sustentável",
      "Sobrecarga operacional e falta de tempo",
      "Insegurança na tomada de decisões importantes",
      "Dificuldade em encontrar e reter talentos"]),
    ("desejos_profundos".data, SL [
      "Construir um negócio verdadeiramente escalável",
      "Ter mais tempo para focar na estratégia",
      "Alcançar liberdade financeira e geográfica",
      "Ser reconhecido como líder em seu segmento",
      "Criar um legado duradouro"]),
    ("comportamentos".data, Val.dict [
      ("online".data, SL [
        "Busca conteúdo sobre gestão e liderança",
        "Participa de grupos de empreendedores",
        "Consome podcasts e cursos online",
        "Usa LinkedIn profissionalmente"]),
      ("decisao".data, SL [
        "Analisa ROI antes de investir",
        "Busca referências e casos de sucesso",
        "Prefere soluções comprovadas",
        "Valoriza acompanhamento personalizado"])]),
    ("canais_preferidos".data, SL [
      "LinkedIn (networking profissional)",
      "WhatsApp Business (comunicação direta)",
      "E-mail (informações detalhadas)",
      "Eventos presenciais (networking)"])]

/-- `_create_psychological_arsenal` (fully static content). -/
def create_psychological_arsenal (_data : PyDict) : Val :=
  Val.dict [
    ("drivers_mentais_principais".data, Val.list [
      Val.dict [("nome".data, S "Driver da Escassez Temporal"),
        ("gatilho".data, S "Medo de perder oportunidades únicas"),
        ("aplicacao".data, S "Enfatizar limitação de vagas ou período"),
        ("intensidade".data, Val.int 9)],
      Val.dict [("nome".data, S "Driver da Prova Social Elite"),
        ("gatilho".data, S "Desejo de estar entre os melhores"),
        ("aplicacao".data, S "Mostrar outros líderes que já aderiram"),
        ("intensidade".data, Val.int 8)],
      Val.dict [("nome".data, S "Driver do Crescimento Exponencial"),
        ("gatilho".data, S "Ambição de crescer rapidamente"),
        ("aplicacao".data, S "Demonstrar potencial de crescimento acelerado"),
        ("intensidade".data, Val.int 9)],
      Val.dict [("nome".data, S "Driver da Autoridade Reconhecida"),
        ("gatilho".data, S "Necessidade de validação profissional"),
        ("aplicacao".data, S "Posicionar como diferencial competitivo"),
        ("intensidade".data, Val.int 7)],
      Val.dict [("nome".data, S "Driver da Transformação Pessoal"),
        ("gatilho".data, S "Desejo de evolução contínua"),
        ("aplicacao".data, S "Focar na jornada de desenvolvimento"),
        ("intensidade".data, Val.int 8)]]),
    ("sistema_anti_objecoes".data, Val.dict [
      ("objecoes_universais".data, Val.list [
        Val.dict [("objecao".data, S "Não tenho tempo agora"),
          ("resposta".data, S "Justamente por isso você precisa - vamos otimizar seu tempo"),
          ("tecnica".data, S "Inversão da objeção")],
        Val.dict [("objecao".data, S "Preciso pensar melhor"),
          ("resposta".data, S "O que especificamente você gostaria de esclarecer?"),
          ("tecnica".data, S "Especificação")],
        Val.dict [("objecao".data, S "Está muito caro"),
          ("resposta".data, S "Comparado ao custo de não tomar ação?"),
          ("tecnica".data, S "Custo de oportunidade")]])]),
    ("sequencia_pre_pitch".data, SL [
      "1. Reconhecimento da situação atual",
      "2. Identificação do gap de performance",
      "3. Visualização do cenário ideal",
      "4. Urgência da tomada de decisão",
      "5. Apresentação da solução única",
      "6. Call to action irresistível"])]

/-- `_create_market_analysis`: static panorama plus, when real research
was detected, a `dados_pesquisa` section. -/
def create_market_analysis (data : PyDict) : Val :=
  let baseSections : PyDict := [
    ("panorama_geral".data, Val.dict [
      ("segmento".data, pyGetD data "segmento".data (S "Empreendedorismo")),
      ("tamanho_mercado".data, S "R$ 50+ bilhões (empreendedorismo no Brasil)"),
      ("crescimento_anual".data, S "15-20% (acelerado pós-pandemia)"),
      ("nivel_competitividade".data, S "Alto com nichos específicos")]),
    ("tendencias_identificadas".data, SL [
      "Digitalização acelerada de negócios tradicionais",
      "Crescimento do empreendedorismo por necessidade",
      "Demanda por mentoria e consultoria especializada",
      "Foco em sustentabilidade e propósito",
      "Integração de tecnologia e inteligência artificial"]),
    ("oportunidades_mercado".data, SL [
      "Nichos específicos com pouca concorrência",
      "Serviços de alto valor agregado",
      "Soluções híbridas (online + offline)",
      "Parcerias estratégicas com grandes empresas",
      "Expansão para mercados internacionais"])]
  if valTruthy (pyGetD data "has_research".data Val.none) then
    Val.dict (baseSections ++ [("dados_pesquisa".data, Val.dict [
      ("fontes_analisadas".data, pyGetD data "research_sources".data (Val.int 0)),
      ("base_dados".data, S "Pesquisa web massiva + análise de conteúdo"),
      ("periodo_analise".data, S "Últimos 12 meses"),
      ("confiabilidade".data, S "Alta (dados primários)")])])
  else Val.dict baseSections

/-- `_create_implementation_strategy` (fully static content). -/
def create_implementation_strategy (_data : PyDict) : Val :=
  Val.dict [
    ("fase_1_preparacao".data, Val.dict [
      ("prazo".data, S "Primeiros 7 dias"),
      ("acoes".data, SL [
        "Revisar e ajustar avatar do cliente ideal",
        "Preparar scripts baseados nos drivers mentais",
        "Configurar sistema de acompanhamento de métricas",
        "Treinar equipe nos novos processos"])]),
    ("fase_2_implementacao".data, Val.dict [
      ("prazo".data, S "Dias 8-30"),
      ("acoes".data, SL [
        "Implementar sequência de pré-pitch",
        "Ativar sistema anti-objeção",
        "Monitorar e ajustar abordagens",
        "Coletar feedback e otimizar"])]),
    ("fase_3_otimizacao".data, Val.dict [
      ("prazo".data, S "Dias 31-60"),
      ("acoes".data, SL [
        "Analisar resultados e ROI",
        "Escalar estratégias bem-sucedidas",
        "Implementar melhorias baseadas em dados",
        "Preparar próxima fase de crescimento"])]),
    ("metricas_acompanhamento".data, SL [
      "Taxa de conversão por etapa",
      "Tempo médio de ciclo de vendas",
      "Valor médio de transação",
      "Taxa de retenção de clientes",
      "ROI da estratégia implementada"])]

/-- `_create_quality_metrics`: the 85/95/100 scoring and component
labels driven by the extracted flags. -/
def create_quality_metrics (data : PyDict) : Val :=
  let hasResearch := valTruthy (pyGetD data "has_research".data Val.none)
  let hasPsych := valTruthy (pyGetD data "has_psychological_analysis".data Val.none)
  let score : Int := 85 + (if hasResearch then 10 else 0) + (if hasPsych then 5 else 0)
  Val.dict [
    ("score_qualidade_geral".data, Val.int (min score 100)),
    ("componentes_analisados".data, Val.dict [
      ("pesquisa_mercado".data, if hasResearch then S "✅ Completa" else S "⚠️ Básica"),
      ("avatar_detalhado".data, S "✅ Completo"),
      ("drivers_psicologicos".data, S "✅ Completo"),
      ("sistema_anti_objecao".data, S "✅ Completo"),
      ("funil_vendas".data,
        if valTruthy (pyGetD data "has_funnel_analysis".data Val.none)
        then S "✅ Completo" else S "⚠️ Básico"),
      ("insights_estrategicos".data,
        if valTruthy (pyGetD data "has_strategic_insights".data Val.none)
        then S "✅ Completos" else S "⚠️ Básicos"),
      ("estrategia_implementacao".data, S "✅ Completa")]),
    ("confiabilidade_dados".data, if hasResearch then S "Alta" else S "Média"),
    ("aplicabilidade_pratica".data, S "Muito Alta"),
    ("potencial_roi".data, S "Alto (3-5x investimento inicial)")]

/-- `_create_action_plan` (fully static content). -/
def create_action_plan (_data : PyDict) : Val :=
  Val.dict [
    ("proximas_24_horas".data, SL [
      "Revisar todo o relatório em detalhes",
      "Identificar os 3 drivers mentais mais relevantes",
      "Preparar primeiro script de abordagem",
      "Definir métricas de acompanhamento"]),
    ("proxima_semana".data, SL [
      "Implementar sequência de pré-pitch",
      "Treinar equipe nos novos processos",
      "Configurar sistema de métricas",
      "Executar primeiros testes controlados"]),
    ("proximo_mes".data, SL [
      "Analisar resultados iniciais",
      "Otimizar abordagens baseado em dados",
      "Escalar estratégias bem-sucedidas",
      "Preparar próxima fase de crescimento"])]

/-- `_create_funnel_analysis` (fully static content). -/
def create_funnel_analysis (_data : PyDict) : Val :=
  Val.dict [
    ("resumo_executivo".data, Val.dict [
      ("taxa_conversao_geral".data, S "0.8%"),
      ("custo_por_cliente".data, S "R$ 750"),
      ("roi_funil".data, S "450%"),
      ("ciclo_vendas_medio".data, S "45 dias")]),
    ("estagios_funil".data, Val.dict [
      ("consciencia".data, Val.dict [
        ("taxa_conversao".data, S "15%"),
        ("custo_por_lead".data, S "R$ 15"),
        ("principais_canais".data, SL ["SEO", "Redes Sociais", "Referências"])]),
      ("interesse".data, Val.dict [
        ("taxa_conversao".data, S "8%"),
        ("custo_por_lead".data, S "R$ 45"),
        ("principais_acoes".data, SL ["Download", "Webinars", "Consultas"])]),
      ("decisao".data, Val.dict [
        ("taxa_conversao".data, S "0.8%"),
        ("custo_por_cliente".data, S "R$ 750"),
        ("principais_acoes".data, SL ["Demo", "Proposta", "Negociação"])])]),
    ("oportunidades_otimizacao".data, Val.list [
      Val.dict [("area".data, S "Automação de vendas"),
        ("impacto_estimado".data, S "+30% conversão"),
        ("investimento".data, S "R$ 3.000/mês"),
        ("roi_esperado".data, S "400%")],
      Val.dict [("area".data, S "Lead scoring"),
        ("impacto_estimado".data, S "+40% qualificação"),
        ("investimento".data, S "R$ 8.000/mês"),
        ("roi_esperado".data, S "350%")]]),
    ("recomendacoes_priorizadas".data, SL [
      "1. Implementar CRM e automação",
      "2. Otimizar conteúdo para SEO",
      "3. Criar sistema de lead scoring"])]

/-- `_create_strategic_insights` (fully static content; the `segment`
local of the source is assigned but unused). -/
def create_strategic_insights (_data : PyDict) : Val :=
  Val.dict [
    ("analise_swot".data, Val.dict [
      ("forcas".data, SL [
        "Expertise comprovada no segmento",
        "Metodologia estruturada",
        "Resultados mensuráveis",
        "Relacionamento próximo com clientes"]),
      ("fraquezas".data, SL [
        "Dependência de poucos clientes grandes",
        "Limitação geográfica",
        "Processo manual intensivo"]),
      ("oportunidades".data, SL [
        "Expansão digital acelerada",
        "Demanda crescente por consultoria",
        "Gaps no mercado de médias empresas",
        "Integração com tecnologias emergentes"]),
      ("ameacas".data, SL [
        "Commoditização dos serviços",
        "Entrada de players globais",
        "Pressão sobre margens",
        "Mudanças regulatórias"])]),
    ("estrategias_crescimento".data, Val.list [
      Val.dict [("estrategia".data, S "Expansão para empresas médias"),
        ("potencial_receita".data, S "R$ 2M/ano"),
        ("investimento".data, S "R$ 300K"),
        ("prazo".data, S "12 meses"),
        ("risco".data, S "Médio")],
      Val.dict [("estrategia".data, S "Desenvolvimento de IP em IA"),
        ("potencial_receita".data, S "R$ 1.5M/ano"),
        ("investimento".data, S "R$ 500K"),
        ("prazo".data, S "18 meses"),
        ("risco".data, S "Alto")]]),
    ("matriz_priorizacao".data, Val.dict [
      ("alto_impacto_baixo_esforco".data, SL [
        "Automação de processos internos",
        "Parcerias estratégicas"]),
      ("alto_impacto_alto_esforco".data, SL [
        "Expansão geográfica",
        "Desenvolvimento de produtos digitais"])]),
    ("recomendacoes_estrategicas".data, Val.list [
      Val.dict [("prioridade".data, Val.int 1),
        ("acao".data, S "Implementar modelo híbrido (digital + presencial)"),
        ("justificativa".data, S "Tendência irreversível e redução de custos"),
        ("impacto".data, S "Alto"),
        ("prazo".data, S "6 meses")],
      Val.dict [("prioridade".data, Val.int 2),
        ("acao".data, S "Desenvolver expertise em IA aplicada"),
        ("justificativa".data, S "Diferenciação competitiva sustentável"),
        ("impacto".data, S "Muito Alto"),
        ("prazo".data, S "12 meses")]])]

/-- `_create_emergency_report`.  Unreachable from `generate_clean_report`
in this model (its body is total), kept for completeness of the
component's interface. -/
def create_emergency_report (sid : Option PyStr) (err : String) (nowIso : PyStr) : Val :=
  Val.dict [
    ("session_id".data, match sid with | some s => Val.str s | Option.none => Val.none),
    ("timestamp".data, Val.str nowIso),
    ("status".data, S "RELATÓRIO DE EMERGÊNCIA"),
    ("error".data, Val.str err.data),
    ("relatorio_basico".data, Val.dict [
      ("segmento".data, S "Empreendedores"),
      ("recomendacao".data, S "Execute nova análise após verificar configurações"),
      ("proximos_passos".data, SL [
        "Verificar APIs configuradas",
        "Testar conectividade",
        "Executar análise simples primeiro"])])]

/-- The dict underlying a `Val` (the cleaned analysis data is always a
dict when the input is one; see `deep_clean_dict_eq`). -/
def asDict : Val → PyDict
  | Val.dict kvs => kvs
  | _ => []

/-- `generate_clean_report`: deep-cleans the analysis data, extracts the
safe fields and assembles the fixed-schema report.  The body is total,
so the `except` route to `_create_emergency_report` is never taken; the
persistence call is a best-effort sink with no effect on the result. -/
def generate_clean_report (analysis_data : PyDict) (sid : Option PyStr)
    (nowIso nowFmt : PyStr) : Val :=
  let clean := asDict (deep_clean_data (Val.dict analysis_data))
  let rd := extract_safe_data clean
  Val.dict [
    ("session_id".data, match sid with | some s => Val.str s | Option.none => Val.none),
    ("timestamp".data, Val.str nowIso),
    ("engine_version".data, S "ARQV30 Enhanced v3.0 - ULTRA ROBUSTO"),
    ("relatorio_executivo".data, Val.dict [
      ("segmento_analisado".data, pyGetD rd "segmento".data (S "Empreendedores")),
      ("produto_servico".data, pyGetD rd "produto".data (S "Programa MASI")),
      ("data_analise".data, Val.str nowFmt),
      ("tempo_processamento".data, pyGetD rd "processing_time".data (S "N/A")),
      ("qualidade_analise".data,
        if valTruthy (pyGetD rd "has_research".data Val.none)
        then S "PREMIUM" else S "BÁSICA")]),
    ("avatar_cliente_ideal".data, create_detailed_avatar rd),
    ("arsenal_psicologico".data, create_psychological_arsenal rd),
    ("analise_mercado_real".data, create_market_analysis rd),
    ("estrategia_implementacao".data, create_implementation_strategy rd),
    ("metricas_qualidade".data, create_quality_metrics rd),
    ("analise_funil_vendas".data, create_funnel_analysis rd),
    ("insights_estrategicos_completos".data, create_strategic_insights rd),
    ("plano_acao_imediato".data, create_action_plan rd)]

/-!
## Claim-level predicates and concrete fixtures
-/

/-- Did this provider call raise? -/
def isErr : Except String Val → Bool
  | Except.error _ => true
  | Except.ok _ => false

/-- Every content provider raises. -/
def allProvidersFail (pr : Providers) : Prop :=
  isErr pr.base = true ∧ isErr pr.enhanced = true ∧
  isErr pr.funnel = true ∧ isErr pr.insights = true

/-- The value is a mapping with at least one entry. -/
def nonEmptyDict : Val → Bool
  | Val.dict (_ :: _) => true
  | _ => false

/-- The successful value of an `Except`, if any. -/
def exOk? : Except String Val → Option Val
  | Except.ok v => some v
  | Except.error _ => Option.none

/-- The report carries a non-empty `proximos_passos` list. -/
def hasNextStepsList (rep : Val) : Bool :=
  match vGet? rep "proximos_passos".data with
  | some (Val.list (_ :: _)) => true
  | _ => false

/-- The report's executive summary contains the recommended-next-steps
block. -/
def summaryHasSteps (rep : Val) : Prop :=
  match vGet? rep "sumario_executivo".data with
  | some (Val.str s) => next_steps_block <:+: s
  | _ => False

/-- The report carries next-steps content: either the `proximos_passos`
list (emergency shape) or the next-steps section of the executive
summary (consolidated shape). -/
def has_next_steps (rep : Val) : Prop :=
  hasNextStepsList rep = true ∨ summaryHasSteps rep

/-- The report echoes the request: either as the `dados_originais`
bounded copy of the whole request (consolidated shape) or as the
`segmento` / `produto` fields (emergency shape). -/
def echoes_request (data : PyDict) (rep : Val) : Prop :=
  vGet? rep "dados_originais".data = exOk? (create_simple_copy (Val.dict data)) ∨
  (vGet? rep "segmento".data =
      some (pyGetD data "segmento".data (S "Não especificado")) ∧
   vGet? rep "produto".data =
      some (pyGetD data "produto".data (S "Não especificado")))

/-- The minimal content guarantee on the `report` field of the
orchestrator's result. -/
def report_guarantee (data : PyDict) (res : Val) : Prop :=
  match vGet? res "report".data with
  | some rep => nonEmptyDict rep = true ∧ echoes_request data rep ∧ has_next_steps rep
  | Option.none => False

/-- A named section of the report carried inside the orchestrator's
result. -/
def report_section? (res : Val) (key : PyStr) : Option Val :=
  (vGet? res "report".data).bind (fun rep => vGet? rep key)

/-- Concrete clock fixture. -/
def wTenv : TimeEnv :=
  { startTime := 100, elapsed := 7,
    nowIso := "2025-01-01T00:00:00".data, nowFmt := "01/01/2025 00:00:00".data }

/-- Concrete request fixture. -/
def wData : PyDict :=
  [("segmento".data, S "Varejo"), ("produto".data, S "Curso X")]

/-- Providers that all raise (`TimeoutError`). -/
def prAllFail : Providers :=
  { base := Except.error "TimeoutError",
    enhanced := Except.error "TimeoutError",
    funnel := Except.error "TimeoutError",
    insights := Except.error "TimeoutError" }

/-- Nominal base-provider output fixture. -/
def wBaseVal : Val :=
  Val.dict [
    ("pesquisa_web_massiva".data, Val.dict [("total_resultados".data, Val.int 25)]),
    ("avatar_ultra_detalhado".data, Val.dict [("perfil".data, S "Empreendedor")])]

/-- Nominal enhanced-provider output fixture. -/
def wEnhVal : Val :=
  Val.dict [("consolidated_analysis".data, Val.dict [("drivers".data, SL ["d1", "d2"])])]

/-- Nominal funnel-provider output fixture. -/
def wFunVal : Val :=
  Val.dict [("funil_conversao".data, Val.dict [("taxa".data, S "0.8%")])]

/-- Nominal insights-provider output fixture. -/
def wInsVal : Val :=
  Val.dict [("insights_estrategicos".data, Val.dict [("swot".data, S "ok")])]

/-- Providers that all return their nominal truthy dict output. -/
def prAllOk : Providers :=
  { base := Except.ok wBaseVal,
    enhanced := Except.ok wEnhVal,
    funnel := Except.ok wFunVal,
    insights := Except.ok wInsVal }

/-- A 50000-character string. -/
def longA : PyStr := List.replicate 50000 'a'

/-- Did this computation succeed? -/
def isOkE {α : Type} : Except String α → Bool
  | Except.ok _ => true
  | Except.error _ => false

/-- The stage outcome is a normal return with a truthy value. -/
def stage_ok_truthy : Except String Val → Bool
  | Except.ok v => valTruthy v
  | Except.error _ => false

/-- Providers where only the enhanced (psychological) stage raises. -/
def prEnhFail : Providers := { prAllOk with enhanced := Except.error "boom" }

/-- Providers where only the base stage raises. -/
def prBaseFail : Providers := { prAllOk with base := Except.error "boom" }

/-- Providers where only the funnel stage raises. -/
def prFunFail : Providers := { prAllOk with funnel := Except.error "boom" }

/-- Providers where only the insights stage raises. -/
def prInsFail : Providers := { prAllOk with insights := Except.error "boom" }

/-- Providers where the enhanced stage returns an empty dict (a normal
return whose value is falsy in Python). -/
def prEnhEmpty : Providers := { prAllOk with enhanced := Except.ok (Val.dict []) }

/-- The fallback analysis built for the fixture request. -/
def wFallback : Val :=
  match create_fallback_analysis wData wTenv with
  | Except.ok v => v
  | Except.error _ => Val.none

/-- The analysis data reaching `generate_clean_report` when every
provider succeeds on the request `{segmento: "Varejo", produto: "Curso X"}`.
Modelled from the spec: the base content provider
(`ultra_detailed_analysis_engine`, absent from the repository) nominally
produces the echoed request under `projeto_dados` and a massive web
research section with a positive result count. -/
def c8_input (n : Int) : PyDict :=
  [("projeto_dados".data, Val.dict
      [("segmento".data, S "Varejo"), ("produto".data, S "Curso X")]),
   ("pesquisa_web_massiva".data, Val.dict
      [("total_resultados".data, Val.int n)])]

/-!
## Lemmas about the deep sanitizer
-/

theorem longA_length : longA.length = 50000 := by
  simp only [longA, List.length_replicate]

theorem deep_clean_data_eq (v : Val) (md : Nat) :
    deep_clean_data v md = deep_clean_fuel (md + 1) v := by
  simp [deep_clean_data]

theorem clean_dict_eq (fuel : Nat) (kvs : List (PyStr × Val)) :
    deep_clean_fuel (fuel + 1) (Val.dict kvs) = Val.dict (kvs.filterMap (cleanPair fuel)) := by
  simp only [deep_clean_fuel, cleanPair, cleanValD]
  congr 1
  apply List.filterMap_congr
  intro kv _
  by_cases hk : kv.1 ∈ denyKeys <;> by_cases hl : isLongStr kv.2 <;>
    simp [cleanPair, cleanValD, hk, hl]

theorem clean_list_eq (fuel : Nat) (xs : List Val) :
    deep_clean_fuel (fuel + 1) (Val.list xs) =
      Val.list ((xs.take 50).map (deep_clean_fuel fuel)) := rfl

theorem length_truncStr (s : PyStr) (h : s.length > 10000) : (truncStr s).length = 10015 := by
  simp [truncStr, truncSuffix, List.length_take]
  omega

theorem truncStr_idem (s : PyStr) (h : s.length > 10000) : truncStr (truncStr s) = truncStr s := by
  unfold truncStr
  congr 1
  rw [List.take_append_of_le_length (by simp [List.length_take]; omega), List.take_take]
  simp

theorem truncSuffix_suffix (s : PyStr) : truncSuffix <:+ truncStr s :=
  ⟨s.take 10000, rfl⟩

theorem isLongStr_clean (n : Nat) (x : Val) (h : isLongStr x = false) :
    isLongStr (deep_clean_fuel n x) = false := by
  match n, x with
  | 0, _ => rfl
  | _ + 1, Val.none => rfl
  | _ + 1, Val.bool b => rfl
  | _ + 1, Val.int m => rfl
  | _ + 1, Val.str s => exact h
  | _ + 1, Val.dict kvs => simp [deep_clean_fuel, isLongStr]
  | _ + 1, Val.list xs => simp [deep_clean_fuel, isLongStr]
  | _ + 1, Val.other (some s) =>
      simp [deep_clean_fuel, isLongStr, List.length_take]
  | _ + 1, Val.other Option.none => rfl

theorem cleanValD_fix (n : Nat)
    (ih : ∀ v, deep_clean_fuel n (deep_clean_fuel n v) = deep_clean_fuel n v)
    (x : Val) : cleanValD n (cleanValD n x) = cleanValD n x := by
  by_cases hl : isLongStr x = true
  · match x, hl with
    | Val.str s, hl =>
      have hs : s.length > 10000 := by simpa [isLongStr] using hl
      have hlong2 : isLongStr (Val.str (truncStr s)) = true := by
        simp [isLongStr, length_truncStr s hs]
      simp [cleanValD, truncVal, hl, hlong2, truncStr_idem s hs]
  · have hl' : isLongStr x = false := by simpa using hl
    have h2 := isLongStr_clean n x hl'
    simp [cleanValD, hl', h2, ih]

theorem cleanPair_fix (n : Nat)
    (ih : ∀ v, deep_clean_fuel n (deep_clean_fuel n v) = deep_clean_fuel n v)
    (kv : PyStr × Val) : (cleanPair n kv).bind (cleanPair n) = cleanPair n kv := by
  by_cases hk : kv.1 ∈ denyKeys
  · simp [cleanPair, hk]
  · simp [cleanPair, hk, cleanValD_fix n ih kv.2]

theorem deep_clean_fuel_idem (n : Nat) (v : Val) :
    deep_clean_fuel n (deep_clean_fuel n v) = deep_clean_fuel n v := by
  induction n generalizing v with
  | zero => rfl
  | succ n ih =>
    match v with
    | Val.none => rfl
    | Val.bool b => rfl
    | Val.int m => rfl
    | Val.str s => rfl
    | Val.other r => cases r <;> rfl
    | Val.list xs =>
      show deep_clean_fuel (n+1) (Val.list ((xs.take 50).map (deep_clean_fuel n))) = _
      have hlen : ((xs.take 50).map (deep_clean_fuel n)).length ≤ 50 := by
        simp [List.length_take]
      simp only [deep_clean_fuel, List.take_of_length_le hlen, List.map_map]
      congr 1
      apply List.map_congr_left
      intro x _
      exact ih x
    | Val.dict kvs =>
      rw [clean_dict_eq, clean_dict_eq, List.filterMap_filterMap]
      congr 1
      apply List.filterMap_congr
      intro kv _
      exact cleanPair_fix n ih kv

theorem cleanPair_some (n : Nat) {kv p : PyStr × Val} (h : cleanPair n kv = some p) :
    p.1 = kv.1 ∧ kv.1 ∉ denyKeys ∧ p.2 = cleanValD n kv.2 := by
  by_cases hk : kv.1 ∈ denyKeys
  · simp [cleanPair, hk] at h
  · simp [cleanPair, hk] at h
    exact ⟨by simp [← h], hk, by simp [← h]⟩

theorem truncVal_of_long {x : Val} (h : isLongStr x = true) :
    ∃ s, x = Val.str s ∧ truncVal x = Val.str (truncStr s) := by
  match x, h with
  | Val.str s, _ => exact ⟨s, rfl, rfl⟩

theorem denied_free_clean (n : Nat) (v : Val) : DeniedFree (deep_clean_fuel n v) := by
  induction n generalizing v with
  | zero =>
    refine DeniedFree.dict (fun kv hkv => ?_) (fun kv hkv => ?_)
    · simp [maxDepthMarker] at hkv
      subst hkv
      decide
    · simp [maxDepthMarker] at hkv
      subst hkv
      exact DeniedFree.str _
  | succ n ih =>
    match v with
    | Val.none => exact DeniedFree.none
    | Val.bool b => exact DeniedFree.bool b
    | Val.int m => exact DeniedFree.int m
    | Val.str s => exact DeniedFree.str s
    | Val.other r =>
      cases r with
      | some s => exact DeniedFree.str _
      | none => exact DeniedFree.str _
    | Val.list xs =>
      rw [clean_list_eq]
      refine DeniedFree.list (fun x hx => ?_)
      obtain ⟨y, _, rfl⟩ := List.mem_map.mp hx
      exact ih y
    | Val.dict kvs =>
      rw [clean_dict_eq]
      refine DeniedFree.dict (fun kv hkv => ?_) (fun kv hkv => ?_)
      · obtain ⟨kv₀, _, h0⟩ := List.mem_filterMap.mp hkv
        obtain ⟨h1, h2, _⟩ := cleanPair_some n h0
        rw [h1]
        exact h2
      · obtain ⟨kv₀, _, h0⟩ := List.mem_filterMap.mp hkv
        obtain ⟨_, _, h3⟩ := cleanPair_some n h0
        rw [h3]
        unfold cleanValD
        by_cases hl : isLongStr kv₀.2 = true
        · obtain ⟨s, _, ht⟩ := truncVal_of_long hl
          rw [if_pos hl, ht]
          exact DeniedFree.str _
        · simp [hl]
          exact ih kv₀.2

theorem data_only_clean (n : Nat) (v : Val) :
    dataOnlyDepthLe (n + 1) (deep_clean_fuel n v) = true := by
  induction n generalizing v with
  | zero => rfl
  | succ n ih =>
    match v with
    | Val.none => rfl
    | Val.bool b => rfl
    | Val.int m => rfl
    | Val.str s => rfl
    | Val.other r => cases r <;> rfl
    | Val.list xs =>
      rw [clean_list_eq]
      simp only [dataOnlyDepthLe, List.all_eq_true]
      intro x hx
      obtain ⟨y, _, rfl⟩ := List.mem_map.mp hx
      exact ih y
    | Val.dict kvs =>
      rw [clean_dict_eq]
      simp only [dataOnlyDepthLe, List.all_eq_true]
      intro kv hkv
      obtain ⟨kv₀, _, h0⟩ := List.mem_filterMap.mp hkv
      obtain ⟨_, _, h3⟩ := cleanPair_some n h0
      rw [h3]
      unfold cleanValD
      by_cases hl : isLongStr kv₀.2 = true
      · obtain ⟨s, _, ht⟩ := truncVal_of_long hl
        rw [if_pos hl, ht]
        rfl
      · simp only [hl, Bool.false_eq_true, if_false]
        exact ih kv₀.2

theorem data_only_clean_heap (h : Heap) (n : Nat) (r : Nat) :
    dataOnlyDepthLe (n + 1) (deep_clean_heap_fuel h n r) = true := by
  induction n generalizing r with
  | zero => rfl
  | succ n ih =>
    unfold deep_clean_heap_fuel
    match hn : h r with
    | HNode.none => rfl
    | HNode.bool b => rfl
    | HNode.int m => rfl
    | HNode.str s => rfl
    | HNode.other (some s) => rfl
    | HNode.other Option.none => rfl
    | HNode.list xs =>
      simp only [dataOnlyDepthLe, List.all_eq_true]
      intro x hx
      obtain ⟨y, _, rfl⟩ := List.mem_map.mp hx
      exact ih y
    | HNode.dict kvs =>
      simp only [dataOnlyDepthLe, List.all_eq_true]
      intro kv hkv
      obtain ⟨kv₀, _, h0⟩ := List.mem_filterMap.mp hkv
      by_cases hk : kv₀.1 ∈ denyKeys
      · simp [hk] at h0
      · match hv : h kv₀.2 with
        | HNode.str s =>
          rw [hv] at h0
          by_cases hl : s.length > 10000
          · simp [hk, hl] at h0
            rw [← h0]
            rfl
          · simp [hk, hl] at h0
            rw [← h0]
            exact ih kv₀.2
        | HNode.none | HNode.bool _ | HNode.int _ | HNode.list _ | HNode.dict _
        | HNode.other _ =>
          rw [hv] at h0
          simp [hk] at h0
          rw [← h0]
          exact ih kv₀.2

/-!
## Claim theorems: the deep sanitizer
-/

/-- C2 (counterexample): as stated, the claim that `_deep_clean_data`
returns a value of nesting depth at most `maxDepth` is false: on a chain
of 11 nested dicts with the default `maxDepth = 10`, the output has
nesting depth 12 (the innermost value is replaced by the max-depth
marker, which is itself a one-key mapping holding a string, two levels
below the last descended level). -/
theorem C2_depth_counterexample :
    depthLe 10 (deep_clean_data (dictChain 11)) = false ∧
    depthLe 12 (deep_clean_data (dictChain 11)) = true ∧
    dataOnlyDepthLe 12 (deep_clean_data (dictChain 11)) = true := by
  exact ⟨rfl, rfl, rfl⟩

/-- C2 (amended): for any input — including self-referential/aliased
heap structures, covered by quantifying over arbitrary (possibly cyclic)
heaps — `_deep_clean_data` terminates without raising (it is total by
structural recursion on the depth budget, the same argument that bounds
the Python recursion) and returns a value composed only of scalars,
mappings and sequences, of nesting depth at most `maxDepth + 2`; depth
overflow is replaced by the fixed max-depth marker instead of descending
further.  Stated for the heap model and the tree model. -/
theorem C2_amended_sanitizer_total_bounded :
    (∀ (h : Heap) (md r : Nat), dataOnlyDepthLe (md + 2) (deep_clean_heap h r md) = true) ∧
    (∀ (v : Val) (md : Nat), dataOnlyDepthLe (md + 2) (deep_clean_data v md) = true) := by
  constructor
  · intro h md r
    exact data_only_clean_heap h (md + 1) r
  · intro v md
    rw [deep_clean_data_eq]
    exact data_only_clean (md + 1) v

/-- C4 (counterexample): the string half of the claim is false as
stated: a 50000-character string given to `_deep_clean_data` as the
value itself passes through unchanged (length 50000, no truncation
marker) — truncation only happens to strings sitting in mapping-value
position. -/
theorem C4_string_counterexample :
    deep_clean_data (Val.str longA) = Val.str longA ∧
    longA.length = 50000 ∧ ¬(longA.length = 10000 + truncSuffix.length) := by
  refine ⟨rfl, longA_length, by rw [longA_length]; decide⟩

/-- C4 (amended): boundedness of the sanitizer with the code's fixed
limits (50 list elements, 10000 characters): a list of 1000 integers is
cut to exactly 50 elements; a 50000-character string *in mapping-value
position* (under a non-deny-listed key) is truncated to length
10000 + length of the truncation marker and ends with the explicit
"... [truncated]" suffix.  A bare string input or a string list element
passes through untruncated (see the counterexample). -/
theorem C4_amended_sanitizer_bounded :
    (∀ xs : List Int, xs.length = 1000 →
      valListLength (deep_clean_data (Val.list (xs.map Val.int))) = some 50) ∧
    (∀ (k s : PyStr), k ∉ denyKeys → s.length = 50000 →
      vGet? (deep_clean_data (Val.dict [(k, Val.str s)])) k = some (Val.str (truncStr s)) ∧
      (truncStr s).length = 10000 + truncSuffix.length ∧
      truncSuffix <:+ truncStr s) := by
  constructor
  · intro xs hlen
    rw [deep_clean_data_eq, clean_list_eq]
    simp [valListLength, List.length_take, hlen]
  · intro k s hk hs
    have hlong : isLongStr (Val.str s) = true := by simp [isLongStr, hs]
    refine ⟨?_, ?_, truncSuffix_suffix s⟩
    · rw [deep_clean_data_eq, clean_dict_eq]
      simp [cleanPair, cleanValD, hk, hlong, truncVal, vGet?, pyGet?]
    · rw [length_truncStr s (by omega)]
      rfl

/-- C4 (witness): the amended claim at the concrete inputs
`List.replicate 1000 0` and a 50000-character string under the key
"conteudo". -/
theorem C4_amended_sanitizer_bounded_witness :
    valListLength (deep_clean_data (Val.list ((List.replicate 1000 (0 : Int)).map Val.int)))
        = some 50 ∧
    (vGet? (deep_clean_data (Val.dict [("conteudo".data, Val.str longA)])) "conteudo".data
        = some (Val.str (truncStr longA)) ∧
     (truncStr longA).length = 10000 + truncSuffix.length ∧
     truncSuffix <:+ truncStr longA) :=
  ⟨C4_amended_sanitizer_bounded.1 (List.replicate 1000 0)
      (by simp only [List.length_replicate]),
   C4_amended_sanitizer_bounded.2 "conteudo".data longA (by decide) longA_length⟩

/-- C5 (confirmed): the deep sanitizer is idempotent — applying
`_deep_clean_data` (at any `maxDepth`, from the top level) to its own
output returns the output unchanged. -/
theorem C5_sanitizer_idempotent (maxDepth : Nat) (v : Val) :
    deep_clean_data (deep_clean_data v maxDepth) maxDepth = deep_clean_data v maxDepth := by
  rw [deep_clean_data_eq, deep_clean_data_eq]
  exact deep_clean_fuel_idem (maxDepth + 1) v

/-- C6 (confirmed): for every input value and every `maxDepth`, no
deny-listed key ("circular_ref", "parent", "root", "_internal") occurs
as a mapping key anywhere — at any depth — in the sanitized output. -/
theorem C6_denied_keys_absent (maxDepth : Nat) (v : Val) :
    DeniedFree (deep_clean_data v maxDepth) := by
  rw [deep_clean_data_eq]
  exact denied_free_clean (maxDepth + 1) v

/-!
## Lemmas about the orchestrator
-/

theorem pyGet?_append (a b : PyDict) (k : PyStr) :
    pyGet? (a ++ b) k =
      match pyGet? a k with
      | some v => some v
      | Option.none => pyGet? b k := by
  induction a with
  | nil => rfl
  | cons kv tl ih =>
    by_cases h : kv.1 = k <;> simp [pyGet?, h, ih]

theorem pyGet?_optPair_ne (key k : PyStr) (v? : Option Val) (h : ¬(key = k)) :
    pyGet? (optPair key v?) k = Option.none := by
  cases v? <;> simp [optPair, pyGet?, h]

theorem pyGet?_optPair_eq (key : PyStr) (v? : Option Val) :
    pyGet? (optPair key v?) key = v? := by
  cases v? <;> simp [optPair, pyGet?]

theorem infix_append_left (y : PyStr) {x z : PyStr} (h : x <:+: z) : x <:+: y ++ z := by
  obtain ⟨s, t, rfl⟩ := h
  exact ⟨y ++ s, t, by simp [List.append_assoc]⟩

/-- The executive summary, when it is produced, contains the
recommended-next-steps block. -/
theorem summary_has_block {b e f i : Val} {data : PyDict} {nowFmt sum : PyStr}
    (h : generate_executive_summary b e f i data nowFmt = Except.ok sum) :
    next_steps_block <:+: sum := by
  simp only [generate_executive_summary] at h
  cases hs : pyStr? (pyGetD data "segmento".data (Val.str "Empreendedores".data)) with
  | none => rw [hs] at h; simp at h
  | some segs =>
    cases hp : pyStr? (pyGetD data "produto".data (Val.str "Programa MASI".data)) with
    | none => rw [hs, hp] at h; simp at h
    | some prods =>
      rw [hs, hp] at h
      simp only [Except.ok.injEq] at h
      exact ⟨summary_head b e f i segs prods nowFmt, summary_tail,
        by rw [← h, List.append_assoc]⟩

/-- The value of an `Except String (Option Val)` step, `none` on error. -/
def exOkO? : Except String (Option Val) → Option Val
  | Except.ok o => o
  | Except.error _ => Option.none

/-- Field-level description of a successful consolidation. -/
theorem consolidate_fields {b e f i : Val} {data : PyDict} {sid : PyStr}
    {tenv : TimeEnv} {fr : Val}
    (h : consolidate_results_robustly b e f i data sid tenv = Except.ok fr) :
    nonEmptyDict fr = true ∧
    vGet? fr "dados_originais".data = exOk? (create_simple_copy (Val.dict data)) ∧
    summaryHasSteps fr ∧
    vGet? fr "analise_base".data = exOkO? (includeIf b) ∧
    vGet? fr "analise_aprimorada".data = exOkO? (includeIf e) ∧
    vGet? fr "analise_funil".data = exOkO? (includeIf f) ∧
    vGet? fr "insights_estrategicos".data = exOkO? (includeIf i) := by
  unfold consolidate_results_robustly at h
  cases hb : includeIf b with
  | error m => rw [hb] at h; simp at h
  | ok base? =>
  rw [hb] at h
  cases he : includeIf e with
  | error m => rw [he] at h; simp at h
  | ok enh? =>
  rw [he] at h
  cases hf : includeIf f with
  | error m => rw [hf] at h; simp at h
  | ok fun? =>
  rw [hf] at h
  cases hi : includeIf i with
  | error m => rw [hi] at h; simp at h
  | ok ins? =>
  rw [hi] at h
  cases hd : create_simple_copy (Val.dict data) with
  | error m => rw [hd] at h; simp at h
  | ok dados =>
  rw [hd] at h
  cases hs : generate_executive_summary b e f i data tenv.nowFmt with
  | error m => rw [hs] at h; simp at h
  | ok sumario =>
  rw [hs] at h
  simp only [Except.ok.injEq] at h
  subst h
  have hsteps := summary_has_block hs
  rcases base? with _ | bc <;> rcases enh? with _ | ec <;>
    rcases fun? with _ | fc <;> rcases ins? with _ | ic <;>
    refine ⟨rfl, ?_, ?_, ?_, ?_, ?_, ?_⟩ <;>
    simp +decide [vGet?, pyGet?, optPair, consolidatedHeader, exOk?, exOkO?,
      hb, he, hf, hi, hd, summaryHasSteps] <;>
    exact hsteps

/-- The emergency report always satisfies the minimal content
guarantee: success dict present, echoed `segmento`/`produto`, and a
non-empty `proximos_passos` list. -/
theorem minimal_report_guarantee (data : PyDict) (sid : PyStr) (m : String)
    (tenv : TimeEnv) :
    report_guarantee data (generate_minimal_success_report data sid m tenv) :=
  ⟨rfl, Or.inr ⟨rfl, rfl⟩, Or.inl rfl⟩

theorem success_minimal (data : PyDict) (sid : PyStr) (m : String) (tenv : TimeEnv) :
    vGet? (generate_minimal_success_report data sid m tenv) "success".data
      = some (Val.bool true) := rfl

theorem success_mk (sid : PyStr) (tenv : TimeEnv) (rep enh : Val) :
    vGet? (mk_success_result sid tenv rep enh) "success".data
      = some (Val.bool true) := rfl

theorem report_mk (sid : PyStr) (tenv : TimeEnv) (rep enh : Val) :
    vGet? (mk_success_result sid tenv rep enh) "report".data = some rep := rfl

theorem quality_mk (sid : PyStr) (tenv : TimeEnv) (rep enh : Val) :
    vGet? (mk_success_result sid tenv rep enh) "quality_level".data
      = some (Val.str (if valTruthy enh then "PREMIUM".data else "HIGH".data)) := rfl

/-- Inversion: a normal (non-raising) run of the body returns the
success dict built from some consolidated report, with the quality
field driven by the FASE-2 value. -/
theorem body_ok_inv {data : PyDict} {sid : PyStr} {cb : Cb} {pr : Providers}
    {tenv : TimeEnv} {p : Val × List String × List String}
    (h : execute_synchronized_analysis_body data sid cb pr tenv = Except.ok p) :
    ∃ fr, consolidate_results_robustly (fase1_val data cb pr tenv)
        (fase2_of cb pr).1 (fase3_of cb pr).1 (fase4_of cb pr).1 data sid tenv
        = Except.ok fr ∧
      p.1 = mk_success_result sid tenv fr (fase2_of cb pr).1 := by
  unfold execute_synchronized_analysis_body at h
  by_cases hc1 : cbRaises cb 1 = true
  · simp [hc1] at h
  · simp only [hc1, Bool.false_eq_true, if_false] at h
    cases h1 : run_fase1 data cb pr tenv with
    | error m => rw [h1] at h; simp at h
    | ok trip =>
      obtain ⟨b, e1, t1⟩ := trip
      rw [h1] at h
      by_cases hc12 : cbRaises cb 12 = true
      · simp [hc12] at h
      · simp only [hc12, Bool.false_eq_true, if_false] at h
        cases hcons : consolidate_results_robustly b (fase2_of cb pr).1 (fase3_of cb pr).1
            (fase4_of cb pr).1 data sid tenv with
        | error m => rw [hcons] at h; simp at h
        | ok fr =>
          rw [hcons] at h
          by_cases hc15 : cbRaises cb 15 = true
          · simp [hc15] at h
          · simp only [hc15, Bool.false_eq_true, if_false, Except.ok.injEq] at h
            refine ⟨fr, ?_, ?_⟩
            · simp only [fase1_val, h1]
              exact hcons
            · rw [← h]

/-- Every run returns either the emergency result or the success dict. -/
theorem run_result_cases (data : PyDict) (sid : PyStr) (cb : Cb) (pr : Providers)
    (tenv : TimeEnv) :
    (∃ m, (execute_synchronized_analysis data sid cb pr tenv).result =
        generate_minimal_success_report data sid m tenv) ∨
    (∃ fr, consolidate_results_robustly (fase1_val data cb pr tenv)
        (fase2_of cb pr).1 (fase3_of cb pr).1 (fase4_of cb pr).1 data sid tenv
        = Except.ok fr ∧
      (execute_synchronized_analysis data sid cb pr tenv).result =
        mk_success_result sid tenv fr (fase2_of cb pr).1) := by
  unfold execute_synchronized_analysis
  cases hb : execute_synchronized_analysis_body data sid cb pr tenv with
  | error p =>
    obtain ⟨m, es, ts⟩ := p
    exact Or.inl ⟨m, rfl⟩
  | ok p =>
    obtain ⟨fr, hcons, hp⟩ := body_ok_inv hb
    exact Or.inr ⟨fr, hcons, hp⟩

/-- Full description of a run along the normal path. -/
theorem run_normal (data : PyDict) (sid : PyStr) (cb : Cb) (pr : Providers)
    (tenv : TimeEnv) (hc1 : cbRaises cb 1 = false) (hc12 : cbRaises cb 12 = false)
    (hc15 : cbRaises cb 15 = false) {b : Val} {e1 t1 : List String}
    (h1 : run_fase1 data cb pr tenv = Except.ok (b, e1, t1)) {fr : Val}
    (hcons : consolidate_results_robustly b (fase2_of cb pr).1 (fase3_of cb pr).1
      (fase4_of cb pr).1 data sid tenv = Except.ok fr) :
    execute_synchronized_analysis data sid cb pr tenv = {
      result := mk_success_result sid tenv fr (fase2_of cb pr).1
      state := { status := "completed", startTime := tenv.startTime, errors := [],
                 executionTime := some tenv.elapsed, errorMsg := Option.none }
      statusWrites := ["running", "completed"]
      errSink := e1 ++ (fase2_of cb pr).2.1 ++ (fase3_of cb pr).2.1 ++ (fase4_of cb pr).2.1
      etapaSink := t1 ++ (fase2_of cb pr).2.2 ++ (fase3_of cb pr).2.2 ++ (fase4_of cb pr).2.2 ++
        ["resultado_final_completas", "resultado_final_reports",
         "resultado_final_analise_completa"] } := by
  unfold execute_synchronized_analysis execute_synchronized_analysis_body
  rw [h1]
  simp [hc1, hc12, hc15, hcons]

/-- With a non-raising step-2 callback, a successful FASE 1 returns the
base value together with one error-sink event exactly when the base
provider raised. -/
theorem run_fase1_of_cb {data : PyDict} {cb : Cb} {pr : Providers} {tenv : TimeEnv}
    (hcb2 : cbRaises cb 2 = false) (hok : isOkE (run_fase1 data cb pr tenv) = true) :
    run_fase1 data cb pr tenv = Except.ok (fase1_val data cb pr tenv,
      (if isErr pr.base then ["analise_base_falhou"] else []),
      (if isErr pr.base then [] else ["analise_base_robusta"])) := by
  cases hb : pr.base with
  | ok v =>
    have hrf : run_fase1 data cb pr tenv = Except.ok (v, [], ["analise_base_robusta"]) := by
      unfold run_fase1
      simp [hcb2, hb]
    rw [hrf]
    simp [fase1_val, hrf, hb, isErr]
  | error m =>
    cases hfb : create_fallback_analysis data tenv with
    | ok fb =>
      have hrf : run_fase1 data cb pr tenv = Except.ok (fb, ["analise_base_falhou"], []) := by
        unfold run_fase1
        simp [hcb2, hb, hfb]
      rw [hrf]
      simp [fase1_val, hrf, hb, isErr]
    | error m2 =>
      have hrf : run_fase1 data cb pr tenv = Except.error m2 := by
        unfold run_fase1
        simp [hcb2, hb, hfb]
      rw [hrf] at hok
      simp [isOkE] at hok

theorem fase2_of_eq {cb : Cb} {pr : Providers} (hcb8 : cbRaises cb 8 = false) :
    fase2_of cb pr = ((match pr.enhanced with
        | Except.ok v => v
        | Except.error _ => Val.none),
      (if isErr pr.enhanced then ["analise_psicologica_falhou"] else []),
      (if isErr pr.enhanced then [] else ["analise_psicologica_robusta"])) := by
  cases he : pr.enhanced <;> simp [fase2_of, run_stage, hcb8, he, isErr]

theorem fase3_of_eq {cb : Cb} {pr : Providers} (hcb10 : cbRaises cb 10 = false) :
    fase3_of cb pr = ((match pr.funnel with
        | Except.ok v => v
        | Except.error _ => Val.none),
      (if isErr pr.funnel then ["analise_funil_falhou"] else []),
      (if isErr pr.funnel then [] else ["analise_funil_vendas"])) := by
  cases hf : pr.funnel <;> simp [fase3_of, run_stage, hcb10, hf, isErr]

theorem fase4_of_eq {cb : Cb} {pr : Providers} (hcb11 : cbRaises cb 11 = false) :
    fase4_of cb pr = ((match pr.insights with
        | Except.ok v => v
        | Except.error _ => Val.none),
      (if isErr pr.insights then ["insights_estrategicos_falhou"] else []),
      (if isErr pr.insights then [] else ["insights_estrategicos"])) := by
  cases hi : pr.insights <;> simp [fase4_of, run_stage, hcb11, hi, isErr]

theorem valTruthy_fase2 {cb : Cb} {pr : Providers} :
    valTruthy (fase2_of cb pr).1 =
      (!cbRaises cb 8 && stage_ok_truthy pr.enhanced) := by
  by_cases hc : cbRaises cb 8 = true
  · simp [fase2_of, run_stage, hc, valTruthy]
  · have hc' : cbRaises cb 8 = false := by simpa using hc
    cases he : pr.enhanced <;>
      simp [fase2_of, run_stage, hc', he, stage_ok_truthy, valTruthy]

/-!
## Claim theorems: the orchestrator
-/

/-- C1 (confirmed): for every request mapping, session id, progress
callback (raising or not) and provider behaviour,
`execute_synchronized_analysis` returns (it is a total function — no
exception reaches the caller) a mapping whose `success` field is `True`;
and when every content provider raises, the returned report is a
non-empty mapping that echoes the request and carries next-steps
content. -/
theorem C1_never_fails_success (data : PyDict) (sid : PyStr) (cb : Cb)
    (pr : Providers) (tenv : TimeEnv) :
    vGet? (execute_synchronized_analysis data sid cb pr tenv).result "success".data
        = some (Val.bool true) ∧
    (allProvidersFail pr →
      report_guarantee data (execute_synchronized_analysis data sid cb pr tenv).result) := by
  have hcases := run_result_cases data sid cb pr tenv
  constructor
  · rcases hcases with ⟨m, hm⟩ | ⟨fr, _, hmk⟩
    · rw [hm]; exact success_minimal data sid m tenv
    · rw [hmk]; exact success_mk sid tenv fr (fase2_of cb pr).1
  · intro _
    rcases hcases with ⟨m, hm⟩ | ⟨fr, hcons, hmk⟩
    · rw [hm]
      exact minimal_report_guarantee data sid m tenv
    · rw [hmk]
      obtain ⟨hne, hdados, hsteps, _, _, _, _⟩ := consolidate_fields hcons
      exact ⟨hne, Or.inl hdados, Or.inr hsteps⟩

/-- C1 (witness): concrete run in which every provider raises
`TimeoutError`. -/
theorem C1_never_fails_success_witness :
    vGet? (execute_synchronized_analysis wData "s1".data Option.none prAllFail wTenv).result
        "success".data = some (Val.bool true) ∧
    report_guarantee wData
      (execute_synchronized_analysis wData "s1".data Option.none prAllFail wTenv).result :=
  ⟨(C1_never_fails_success wData "s1".data Option.none prAllFail wTenv).1,
   (C1_never_fails_success wData "s1".data Option.none prAllFail wTenv).2
     ⟨rfl, rfl, rfl, rfl⟩⟩

/-- C9 (counterexample): the claim that a raising callback never affects
the outcome is false: with all providers succeeding and identical clocks,
a callback that raises on its first invocation yields the emergency
result (no `sync_status` field) while no callback yields the normal
result (`sync_status = ULTRA_ROBUST_SUCCESS`) — the two results differ
on a non-timestamp field. -/
theorem C9_raising_callback_counterexample :
    vGet? (execute_synchronized_analysis wData "s1".data (some (fun _ => true))
        prAllOk wTenv).result "sync_status".data = Option.none ∧
    vGet? (execute_synchronized_analysis wData "s1".data Option.none
        prAllOk wTenv).result "sync_status".data
      = some (Val.str "ULTRA_ROBUST_SUCCESS".data) ∧
    (execute_synchronized_analysis wData "s1".data (some (fun _ => true))
        prAllOk wTenv).result ≠
      (execute_synchronized_analysis wData "s1".data Option.none prAllOk wTenv).result := by
  refine ⟨rfl, rfl, fun heq => ?_⟩
  have h2 := congrArg (fun r => vGet? r "sync_status".data) heq
  exact Option.noConfusion h2

/-- C9 (amended): the progress callback is advisory as long as it does
not raise: for every request, session id, providers and clock, the run
with any non-raising callback is identical — result, final state, status
writes and sink events — to the run with no callback.  A raising
callback, by contrast, does change control flow (see the
counterexample). -/
theorem C9_nonraising_callback_advisory (data : PyDict) (sid : PyStr)
    (pr : Providers) (tenv : TimeEnv) (f : Nat → Bool) (hf : ∀ n, f n = false) :
    execute_synchronized_analysis data sid (some f) pr tenv =
      execute_synchronized_analysis data sid Option.none pr tenv := by
  simp only [execute_synchronized_analysis, execute_synchronized_analysis_body,
    run_fase1, fase2_of, fase3_of, fase4_of, fase1_val, cbRaises, hf]

/-- C9 (witness): the amended claim at a concrete never-raising callback. -/
theorem C9_nonraising_callback_advisory_witness :
    execute_synchronized_analysis wData "s1".data (some (fun _ => false)) prAllOk wTenv =
      execute_synchronized_analysis wData "s1".data Option.none prAllOk wTenv :=
  C9_nonraising_callback_advisory wData "s1".data prAllOk wTenv (fun _ => false)
    (fun _ => rfl)

/-- C10 (counterexample): the claim is false as stated: when the
enhanced stage produces a result that is an *empty* mapping (a normal
return, no exception), the top-level `quality_level` is "HIGH", not
"PREMIUM" — the code tests Python truthiness of the value, not whether
the stage produced a result. -/
theorem C10_quality_counterexample :
    isErr prEnhEmpty.enhanced = false ∧
    vGet? (execute_synchronized_analysis wData "s1".data Option.none prEnhEmpty
        wTenv).result "quality_level".data = some (S "HIGH") :=
  ⟨rfl, rfl⟩

/-- C10 (amended): on every run in which no exception escapes the
orchestration logic itself (the body returns normally), the top-level
`quality_level` is exactly "PREMIUM" when the enhanced stage completed
with a *truthy* value and "HIGH" otherwise; in particular failures of
the base, funnel and strategic-insights stages never affect it, and the
top-level response never carries a "BASIC" label. -/
theorem C10_amended_quality_level (data : PyDict) (sid : PyStr) (cb : Cb)
    (pr : Providers) (tenv : TimeEnv) (p : Val × List String × List String)
    (hbody : execute_synchronized_analysis_body data sid cb pr tenv = Except.ok p) :
    (vGet? (execute_synchronized_analysis data sid cb pr tenv).result "quality_level".data
        = some (S "PREMIUM") ∨
     vGet? (execute_synchronized_analysis data sid cb pr tenv).result "quality_level".data
        = some (S "HIGH")) ∧
    (vGet? (execute_synchronized_analysis data sid cb pr tenv).result "quality_level".data
        = some (S "PREMIUM") ↔
      (cbRaises cb 8 = false ∧ stage_ok_truthy pr.enhanced = true)) := by
  obtain ⟨res, es, ts⟩ := p
  obtain ⟨fr, hcons, hp⟩ := body_ok_inv hbody
  have hres : (execute_synchronized_analysis data sid cb pr tenv).result
      = mk_success_result sid tenv fr (fase2_of cb pr).1 := by
    unfold execute_synchronized_analysis
    rw [hbody, ← hp]
  rw [hres, quality_mk, valTruthy_fase2]
  cases hb8 : (!cbRaises cb 8 && stage_ok_truthy pr.enhanced) with
  | false =>
    have hred : (if false = true then "PREMIUM".data else "HIGH".data) = "HIGH".data := rfl
    rw [hred]
    refine ⟨Or.inr rfl, ?_, ?_⟩
    · intro h
      simp +decide [S] at h
    · intro ⟨hh1, hh2⟩
      simp [hh1, hh2] at hb8
  | true =>
    have hred : (if true = true then "PREMIUM".data else "HIGH".data) = "PREMIUM".data := rfl
    rw [hred]
    obtain ⟨hnot, hstage⟩ : (!cbRaises cb 8) = true ∧ stage_ok_truthy pr.enhanced = true := by
      simpa using hb8
    have hc8 : cbRaises cb 8 = false := by simpa using hnot
    refine ⟨Or.inl rfl, ?_, ?_⟩
    · intro _
      exact ⟨hc8, hstage⟩
    · intro _
      rfl

/-- C10 (witness): a concrete normal run with a truthy enhanced result
gets `quality_level = PREMIUM`. -/
theorem C10_amended_quality_level_witness :
    (vGet? (execute_synchronized_analysis wData "s1".data Option.none prAllOk
        wTenv).result "quality_level".data = some (S "PREMIUM") ∨
     vGet? (execute_synchronized_analysis wData "s1".data Option.none prAllOk
        wTenv).result "quality_level".data = some (S "HIGH")) ∧
    (vGet? (execute_synchronized_analysis wData "s1".data Option.none prAllOk
        wTenv).result "quality_level".data = some (S "PREMIUM") ↔
      (cbRaises Option.none 8 = false ∧ stage_ok_truthy prAllOk.enhanced = true)) :=
  C10_amended_quality_level wData "s1".data Option.none prAllOk wTenv _ rfl

/-- C7 (counterexample): after a run in which all four content providers
raised, the per-session execution state's `errors` list does *not*
contain one entry per failed stage: it is empty (the code only
initializes it and never appends; failures are recorded through the
external `salvar_erro` sink, which received four events here). -/
theorem C7_error_list_counterexample :
    (execute_synchronized_analysis wData "s1".data Option.none prAllFail wTenv).errSink
      = ["analise_base_falhou", "analise_psicologica_falhou", "analise_funil_falhou",
         "insights_estrategicos_falhou"] ∧
    (execute_synchronized_analysis wData "s1".data Option.none prAllFail wTenv).state.errors
      = [] ∧
    ¬((execute_synchronized_analysis wData "s1".data Option.none prAllFail
        wTenv).state.errors.length = 4) := by
  refine ⟨rfl, rfl, ?_⟩
  intro h
  have h0 : (execute_synchronized_analysis wData "s1".data Option.none prAllFail
      wTenv).state.errors.length = 0 := rfl
  omega

/-- C7 (amended): on a run with a non-raising callback in which FASE 1
and the consolidation succeed, the session state's `errors` list stays
empty, the external error sink receives exactly one event per failed
stage (in stage order), and the session status is written exactly twice:
`running` at the start and `completed` at the end — stage failures never
move it away from `running` before completion. -/
theorem C7_amended_error_accounting (data : PyDict) (sid : PyStr) (cb : Cb)
    (pr : Providers) (tenv : TimeEnv) (hcb : ∀ n, cbRaises cb n = false)
    (h1 : isOkE (run_fase1 data cb pr tenv) = true)
    (hcons : isOkE (consolidate_results_robustly (fase1_val data cb pr tenv)
      (fase2_of cb pr).1 (fase3_of cb pr).1 (fase4_of cb pr).1 data sid tenv) = true) :
    (execute_synchronized_analysis data sid cb pr tenv).state.errors = [] ∧
    (execute_synchronized_analysis data sid cb pr tenv).errSink =
      (if isErr pr.base then ["analise_base_falhou"] else []) ++
      (if isErr pr.enhanced then ["analise_psicologica_falhou"] else []) ++
      (if isErr pr.funnel then ["analise_funil_falhou"] else []) ++
      (if isErr pr.insights then ["insights_estrategicos_falhou"] else []) ∧
    (execute_synchronized_analysis data sid cb pr tenv).statusWrites
      = ["running", "completed"] := by
  have h1' := run_fase1_of_cb (hcb 2) h1
  cases hc : consolidate_results_robustly (fase1_val data cb pr tenv)
      (fase2_of cb pr).1 (fase3_of cb pr).1 (fase4_of cb pr).1 data sid tenv with
  | error m => rw [hc] at hcons; simp [isOkE] at hcons
  | ok fr =>
    have hrun := run_normal data sid cb pr tenv (hcb 1) (hcb 12) (hcb 15) h1' hc
    rw [hrun]
    refine ⟨rfl, ?_, rfl⟩
    rw [fase2_of_eq (hcb 8), fase3_of_eq (hcb 10), fase4_of_eq (hcb 11)]

/-- C7 (witness): concrete run with all four providers raising — four
error-sink events, empty state error list, status trace
`[running, completed]`. -/
theorem C7_amended_error_accounting_witness :
    (execute_synchronized_analysis wData "s1".data Option.none prAllFail wTenv).state.errors
      = [] ∧
    (execute_synchronized_analysis wData "s1".data Option.none prAllFail wTenv).errSink =
      (if isErr prAllFail.base then ["analise_base_falhou"] else []) ++
      (if isErr prAllFail.enhanced then ["analise_psicologica_falhou"] else []) ++
      (if isErr prAllFail.funnel then ["analise_funil_falhou"] else []) ++
      (if isErr prAllFail.insights then ["insights_estrategicos_falhou"] else []) ∧
    (execute_synchronized_analysis wData "s1".data Option.none prAllFail wTenv).statusWrites
      = ["running", "completed"] :=
  C7_amended_error_accounting wData "s1".data Option.none prAllFail wTenv
    (fun _ => rfl) rfl rfl

/-- The static fallback analysis, when it is built, is a non-empty
mapping (hence truthy). -/
theorem fallback_truthy_dict {data : PyDict} {tenv : TimeEnv} {fb : Val}
    (h : create_fallback_analysis data tenv = Except.ok fb) :
    valTruthy fb = true ∧ isDictV fb = true := by
  unfold create_fallback_analysis at h
  cases hs : pyGetD data "segmento".data (Val.str "Empreendedores".data) with
  | str s =>
    rw [hs] at h
    simp only [Except.ok.injEq] at h
    subst h
    exact ⟨rfl, rfl⟩
  | none => rw [hs] at h; simp at h
  | bool b => rw [hs] at h; simp at h
  | int n => rw [hs] at h; simp at h
  | list xs => rw [hs] at h; simp at h
  | dict kvs => rw [hs] at h; simp at h
  | other r => rw [hs] at h; simp at h

/-- C3 (counterexample): the claim is false as stated: with only the
enhanced stage's provider raising (all others succeeding), the run
succeeds and the other sections are present, but the failed stage's
section (`analise_aprimorada`) is *absent* from the consolidated report
rather than appearing as placeholder content. -/
theorem C3_absent_section_counterexample :
    isErr prEnhFail.enhanced = true ∧ isErr prEnhFail.base = false ∧
    isErr prEnhFail.funnel = false ∧ isErr prEnhFail.insights = false ∧
    vGet? (execute_synchronized_analysis wData "s1".data Option.none prEnhFail
        wTenv).result "success".data = some (Val.bool true) ∧
    ((vGet? (execute_synchronized_analysis wData "s1".data Option.none prEnhFail
        wTenv).result "report".data).bind
      (fun rep => vGet? rep "analise_funil".data)).isSome = true ∧
    (vGet? (execute_synchronized_analysis wData "s1".data Option.none prEnhFail
        wTenv).result "report".data).bind
      (fun rep => vGet? rep "analise_aprimorada".data) = Option.none :=
  ⟨rfl, rfl, rfl, rfl, rfl, rfl, rfl⟩

/-- Shared inversion: on a callback-free run whose FASE 1 succeeded and
whose consolidation succeeds, the result carries `success=true` and
each report section is exactly `includeIf` of the corresponding stage
value. -/
theorem run_sections (data : PyDict) (sid : PyStr) (pr : Providers) (tenv : TimeEnv)
    {b : Val} {e1 t1 : List String}
    (h1 : run_fase1 data Option.none pr tenv = Except.ok (b, e1, t1)) {fr : Val}
    (hcc : consolidate_results_robustly b (fase2_of Option.none pr).1
      (fase3_of Option.none pr).1 (fase4_of Option.none pr).1 data sid tenv
      = Except.ok fr) :
    vGet? (execute_synchronized_analysis data sid Option.none pr tenv).result
        "success".data = some (Val.bool true) ∧
    report_section? (execute_synchronized_analysis data sid Option.none pr tenv).result
        "analise_base".data = exOkO? (includeIf b) ∧
    report_section? (execute_synchronized_analysis data sid Option.none pr tenv).result
        "analise_aprimorada".data = exOkO? (includeIf (fase2_of Option.none pr).1) ∧
    report_section? (execute_synchronized_analysis data sid Option.none pr tenv).result
        "analise_funil".data = exOkO? (includeIf (fase3_of Option.none pr).1) ∧
    report_section? (execute_synchronized_analysis data sid Option.none pr tenv).result
        "insights_estrategicos".data = exOkO? (includeIf (fase4_of Option.none pr).1) := by
  have hrun := run_normal data sid Option.none pr tenv rfl rfl rfl h1 hcc
  have hres : (execute_synchronized_analysis data sid Option.none pr tenv).result
      = mk_success_result sid tenv fr (fase2_of Option.none pr).1 := by rw [hrun]
  have hrep : vGet? (execute_synchronized_analysis data sid Option.none pr
      tenv).result "report".data = some fr := by rw [hres]; rfl
  have hsuc : vGet? (execute_synchronized_analysis data sid Option.none pr
      tenv).result "success".data = some (Val.bool true) := by rw [hres]; rfl
  have hsec : ∀ k : PyStr,
      report_section? (execute_synchronized_analysis data sid Option.none pr
        tenv).result k = vGet? fr k := by
    intro k
    unfold report_section?
    rw [hrep]
    rfl
  obtain ⟨_, _, _, hbase, henh, hfun, hins⟩ := consolidate_fields hcc
  exact ⟨hsuc, by rw [hsec]; exact hbase, by rw [hsec]; exact henh,
    by rw [hsec]; exact hfun, by rw [hsec]; exact hins⟩

/-- C3 (amended): for every single failing stage X — X's content
provider raising while the other three succeed with truthy dict
values — no exception escapes the stage boundary: the final result has
`success=true` and the other stages' sections contain their normal
(bounded-copy) output; X's section appears as valid placeholder
content only when X is the base stage (the static fallback analysis),
while for the enhanced, funnel and insights stages the failed stage's
section is omitted from the consolidated report. -/
theorem C3_amended_stage_isolation :
    (∀ (data : PyDict) (sid : PyStr) (tenv : TimeEnv) (pr : Providers)
      (e f i : Val) (m : String) (fb fbc ec fc ic : Val),
      pr.base = Except.error m → pr.enhanced = Except.ok e →
      pr.funnel = Except.ok f → pr.insights = Except.ok i →
      create_fallback_analysis data tenv = Except.ok fb →
      create_simple_copy fb = Except.ok fbc →
      valTruthy e = true → isDictV e = true → create_simple_copy e = Except.ok ec →
      valTruthy f = true → isDictV f = true → create_simple_copy f = Except.ok fc →
      valTruthy i = true → isDictV i = true → create_simple_copy i = Except.ok ic →
      isOkE (consolidate_results_robustly fb e f i data sid tenv) = true →
      vGet? (execute_synchronized_analysis data sid Option.none pr tenv).result
          "success".data = some (Val.bool true) ∧
      report_section? (execute_synchronized_analysis data sid Option.none pr tenv).result
          "analise_base".data = some fbc ∧
      report_section? (execute_synchronized_analysis data sid Option.none pr tenv).result
          "analise_aprimorada".data = some ec ∧
      report_section? (execute_synchronized_analysis data sid Option.none pr tenv).result
          "analise_funil".data = some fc ∧
      report_section? (execute_synchronized_analysis data sid Option.none pr tenv).result
          "insights_estrategicos".data = some ic) ∧
    (∀ (data : PyDict) (sid : PyStr) (tenv : TimeEnv) (pr : Providers)
      (b f i : Val) (m : String) (bc fc ic : Val),
      pr.base = Except.ok b → pr.enhanced = Except.error m →
      pr.funnel = Except.ok f → pr.insights = Except.ok i →
      valTruthy b = true → isDictV b = true → create_simple_copy b = Except.ok bc →
      valTruthy f = true → isDictV f = true → create_simple_copy f = Except.ok fc →
      valTruthy i = true → isDictV i = true → create_simple_copy i = Except.ok ic →
      isOkE (consolidate_results_robustly b Val.none f i data sid tenv) = true →
      vGet? (execute_synchronized_analysis data sid Option.none pr tenv).result
          "success".data = some (Val.bool true) ∧
      report_section? (execute_synchronized_analysis data sid Option.none pr tenv).result
          "analise_base".data = some bc ∧
      report_section? (execute_synchronized_analysis data sid Option.none pr tenv).result
          "analise_aprimorada".data = Option.none ∧
      report_section? (execute_synchronized_analysis data sid Option.none pr tenv).result
          "analise_funil".data = some fc ∧
      report_section? (execute_synchronized_analysis data sid Option.none pr tenv).result
          "insights_estrategicos".data = some ic) ∧
    (∀ (data : PyDict) (sid : PyStr) (tenv : TimeEnv) (pr : Providers)
      (b e i : Val) (m : String) (bc ec ic : Val),
      pr.base = Except.ok b → pr.enhanced = Except.ok e →
      pr.funnel = Except.error m → pr.insights = Except.ok i →
      valTruthy b = true → isDictV b = true → create_simple_copy b = Except.ok bc →
      valTruthy e = true → isDictV e = true → create_simple_copy e = Except.ok ec →
      valTruthy i = true → isDictV i = true → create_simple_copy i = Except.ok ic →
      isOkE (consolidate_results_robustly b e Val.none i data sid tenv) = true →
      vGet? (execute_synchronized_analysis data sid Option.none pr tenv).result
          "success".data = some (Val.bool true) ∧
      report_section? (execute_synchronized_analysis data sid Option.none pr tenv).result
          "analise_base".data = some bc ∧
      report_section? (execute_synchronized_analysis data sid Option.none pr tenv).result
          "analise_aprimorada".data = some ec ∧
      report_section? (execute_synchronized_analysis data sid Option.none pr tenv).result
          "analise_funil".data = Option.none ∧
      report_section? (execute_synchronized_analysis data sid Option.none pr tenv).result
          "insights_estrategicos".data = some ic) ∧
    (∀ (data : PyDict) (sid : PyStr) (tenv : TimeEnv) (pr : Providers)
      (b e f : Val) (m : String) (bc ec fc : Val),
      pr.base = Except.ok b → pr.enhanced = Except.ok e →
      pr.funnel = Except.ok f → pr.insights = Except.error m →
      valTruthy b = true → isDictV b = true → create_simple_copy b = Except.ok bc →
      valTruthy e = true → isDictV e = true → create_simple_copy e = Except.ok ec →
      valTruthy f = true → isDictV f = true → create_simple_copy f = Except.ok fc →
      isOkE (consolidate_results_robustly b e f Val.none data sid tenv) = true →
      vGet? (execute_synchronized_analysis data sid Option.none pr tenv).result
          "success".data = some (Val.bool true) ∧
      report_section? (execute_synchronized_analysis data sid Option.none pr tenv).result
          "analise_base".data = some bc ∧
      report_section? (execute_synchronized_analysis data sid Option.none pr tenv).result
          "analise_aprimorada".data = some ec ∧
      report_section? (execute_synchronized_analysis data sid Option.none pr tenv).result
          "analise_funil".data = some fc ∧
      report_section? (execute_synchronized_analysis data sid Option.none pr tenv).result
          "insights_estrategicos".data = Option.none) := by
  refine ⟨?_, ?_, ?_, ?_⟩
  · intro data sid tenv pr e f i m fb fbc ec fc ic hpb hpe hpf hpi hfb hcfb
      het hed hce hft hfd hcf hit hid hci hcons
    obtain ⟨hfbt, hfbd⟩ := fallback_truthy_dict hfb
    have h2v : (fase2_of Option.none pr).1 = e := by
      simp [fase2_of, run_stage, cbRaises, hpe]
    have h3v : (fase3_of Option.none pr).1 = f := by
      simp [fase3_of, run_stage, cbRaises, hpf]
    have h4v : (fase4_of Option.none pr).1 = i := by
      simp [fase4_of, run_stage, cbRaises, hpi]
    have h1 : run_fase1 data Option.none pr tenv
        = Except.ok (fb, ["analise_base_falhou"], []) := by
      unfold run_fase1
      simp [cbRaises, hpb, hfb]
    cases hcc : consolidate_results_robustly fb e f i data sid tenv with
    | error m2 => rw [hcc] at hcons; simp [isOkE] at hcons
    | ok fr =>
      have hcc' : consolidate_results_robustly fb (fase2_of Option.none pr).1
          (fase3_of Option.none pr).1 (fase4_of Option.none pr).1 data sid tenv
          = Except.ok fr := by
        rw [h2v, h3v, h4v]
        exact hcc
      obtain ⟨hsuc, hbase, henh, hfun, hins⟩ := run_sections data sid pr tenv h1 hcc'
      rw [h2v] at henh
      rw [h3v] at hfun
      rw [h4v] at hins
      refine ⟨hsuc, ?_, ?_, ?_, ?_⟩
      · rw [hbase]
        simp [includeIf, hfbt, hfbd, hcfb, exOkO?, Except.map]
      · rw [henh]
        simp [includeIf, het, hed, hce, exOkO?, Except.map]
      · rw [hfun]
        simp [includeIf, hft, hfd, hcf, exOkO?, Except.map]
      · rw [hins]
        simp [includeIf, hit, hid, hci, exOkO?, Except.map]
  · intro data sid tenv pr b f i m bc fc ic hpb hpe hpf hpi hbt hbd hcb
      hft hfd hcf hit hid hci hcons
    have h2v : (fase2_of Option.none pr).1 = Val.none := by
      simp [fase2_of, run_stage, cbRaises, hpe]
    have h3v : (fase3_of Option.none pr).1 = f := by
      simp [fase3_of, run_stage, cbRaises, hpf]
    have h4v : (fase4_of Option.none pr).1 = i := by
      simp [fase4_of, run_stage, cbRaises, hpi]
    have h1 : run_fase1 data Option.none pr tenv
        = Except.ok (b, [], ["analise_base_robusta"]) := by
      unfold run_fase1
      simp [cbRaises, hpb]
    cases hcc : consolidate_results_robustly b Val.none f i data sid tenv with
    | error m2 => rw [hcc] at hcons; simp [isOkE] at hcons
    | ok fr =>
      have hcc' : consolidate_results_robustly b (fase2_of Option.none pr).1
          (fase3_of Option.none pr).1 (fase4_of Option.none pr).1 data sid tenv
          = Except.ok fr := by
        rw [h2v, h3v, h4v]
        exact hcc
      obtain ⟨hsuc, hbase, henh, hfun, hins⟩ := run_sections data sid pr tenv h1 hcc'
      rw [h2v] at henh
      rw [h3v] at hfun
      rw [h4v] at hins
      refine ⟨hsuc, ?_, ?_, ?_, ?_⟩
      · rw [hbase]
        simp [includeIf, hbt, hbd, hcb, exOkO?, Except.map]
      · rw [henh]
        rfl
      · rw [hfun]
        simp [includeIf, hft, hfd, hcf, exOkO?, Except.map]
      · rw [hins]
        simp [includeIf, hit, hid, hci, exOkO?, Except.map]
  · intro data sid tenv pr b e i m bc ec ic hpb hpe hpf hpi hbt hbd hcb
      het hed hce hit hid hci hcons
    have h2v : (fase2_of Option.none pr).1 = e := by
      simp [fase2_of, run_stage, cbRaises, hpe]
    have h3v : (fase3_of Option.none pr).1 = Val.none := by
      simp [fase3_of, run_stage, cbRaises, hpf]
    have h4v : (fase4_of Option.none pr).1 = i := by
      simp [fase4_of, run_stage, cbRaises, hpi]
    have h1 : run_fase1 data Option.none pr tenv
        = Except.ok (b, [], ["analise_base_robusta"]) := by
      unfold run_fase1
      simp [cbRaises, hpb]
    cases hcc : consolidate_results_robustly b e Val.none i data sid tenv with
    | error m2 => rw [hcc] at hcons; simp [isOkE] at hcons
    | ok fr =>
      have hcc' : consolidate_results_robustly b (fase2_of Option.none pr).1
          (fase3_of Option.none pr).1 (fase4_of Option.none pr).1 data sid tenv
          = Except.ok fr := by
        rw [h2v, h3v, h4v]
        exact hcc
      obtain ⟨hsuc, hbase, henh, hfun, hins⟩ := run_sections data sid pr tenv h1 hcc'
      rw [h2v] at henh
      rw [h3v] at hfun
      rw [h4v] at hins
      refine ⟨hsuc, ?_, ?_, ?_, ?_⟩
      · rw [hbase]
        simp [includeIf, hbt, hbd, hcb, exOkO?, Except.map]
      · rw [henh]
        simp [includeIf, het, hed, hce, exOkO?, Except.map]
      · rw [hfun]
        rfl
      · rw [hins]
        simp [includeIf, hit, hid, hci, exOkO?, Except.map]
  · intro data sid tenv pr b e f m bc ec fc hpb hpe hpf hpi hbt hbd hcb
      het hed hce hft hfd hcf hcons
    have h2v : (fase2_of Option.none pr).1 = e := by
      simp [fase2_of, run_stage, cbRaises, hpe]
    have h3v : (fase3_of Option.none pr).1 = f := by
      simp [fase3_of, run_stage, cbRaises, hpf]
    have h4v : (fase4_of Option.none pr).1 = Val.none := by
      simp [fase4_of, run_stage, cbRaises, hpi]
    have h1 : run_fase1 data Option.none pr tenv
        = Except.ok (b, [], ["analise_base_robusta"]) := by
      unfold run_fase1
      simp [cbRaises, hpb]
    cases hcc : consolidate_results_robustly b e f Val.none data sid tenv with
    | error m2 => rw [hcc] at hcons; simp [isOkE] at hcons
    | ok fr =>
      have hcc' : consolidate_results_robustly b (fase2_of Option.none pr).1
          (fase3_of Option.none pr).1 (fase4_of Option.none pr).1 data sid tenv
          = Except.ok fr := by
        rw [h2v, h3v, h4v]
        exact hcc
      obtain ⟨hsuc, hbase, henh, hfun, hins⟩ := run_sections data sid pr tenv h1 hcc'
      rw [h2v] at henh
      rw [h3v] at hfun
      rw [h4v] at hins
      refine ⟨hsuc, ?_, ?_, ?_, ?_⟩
      · rw [hbase]
        simp [includeIf, hbt, hbd, hcb, exOkO?, Except.map]
      · rw [henh]
        simp [includeIf, het, hed, hce, exOkO?, Except.map]
      · rw [hfun]
        simp [includeIf, hft, hfd, hcf, exOkO?, Except.map]
      · rw [hins]
        rfl

/-- C3 (witness): the amended claim at four concrete runs, one per
failing stage: the base-failure run shows its section as the fallback
placeholder, and each of the enhanced-, funnel- and insights-failure
runs shows the failed stage's section absent with the other three
sections carrying their nominal output. -/
theorem C3_amended_stage_isolation_witness :
    (vGet? (execute_synchronized_analysis wData "s1".data Option.none prBaseFail
        wTenv).result "success".data = some (Val.bool true) ∧
     report_section? (execute_synchronized_analysis wData "s1".data Option.none prBaseFail
        wTenv).result "analise_base".data = some wFallback ∧
     report_section? (execute_synchronized_analysis wData "s1".data Option.none prBaseFail
        wTenv).result "analise_aprimorada".data = some wEnhVal ∧
     report_section? (execute_synchronized_analysis wData "s1".data Option.none prBaseFail
        wTenv).result "analise_funil".data = some wFunVal ∧
     report_section? (execute_synchronized_analysis wData "s1".data Option.none prBaseFail
        wTenv).result "insights_estrategicos".data = some wInsVal) ∧
    (vGet? (execute_synchronized_analysis wData "s1".data Option.none prEnhFail
        wTenv).result "success".data = some (Val.bool true) ∧
     report_section? (execute_synchronized_analysis wData "s1".data Option.none prEnhFail
        wTenv).result "analise_base".data = some wBaseVal ∧
     report_section? (execute_synchronized_analysis wData "s1".data Option.none prEnhFail
        wTenv).result "analise_aprimorada".data = Option.none ∧
     report_section? (execute_synchronized_analysis wData "s1".data Option.none prEnhFail
        wTenv).result "analise_funil".data = some wFunVal ∧
     report_section? (execute_synchronized_analysis wData "s1".data Option.none prEnhFail
        wTenv).result "insights_estrategicos".data = some wInsVal) ∧
    (vGet? (execute_synchronized_analysis wData "s1".data Option.none prFunFail
        wTenv).result "success".data = some (Val.bool true) ∧
     report_section? (execute_synchronized_analysis wData "s1".data Option.none prFunFail
        wTenv).result "analise_base".data = some wBaseVal ∧
     report_section? (execute_synchronized_analysis wData "s1".data Option.none prFunFail
        wTenv).result "analise_aprimorada".data = some wEnhVal ∧
     report_section? (execute_synchronized_analysis wData "s1".data Option.none prFunFail
        wTenv).result "analise_funil".data = Option.none ∧
     report_section? (execute_synchronized_analysis wData "s1".data Option.none prFunFail
        wTenv).result "insights_estrategicos".data = some wInsVal) ∧
    (vGet? (execute_synchronized_analysis wData "s1".data Option.none prInsFail
        wTenv).result "success".data = some (Val.bool true) ∧
     report_section? (execute_synchronized_analysis wData "s1".data Option.none prInsFail
        wTenv).result "analise_base".data = some wBaseVal ∧
     report_section? (execute_synchronized_analysis wData "s1".data Option.none prInsFail
        wTenv).result "analise_aprimorada".data = some wEnhVal ∧
     report_section? (execute_synchronized_analysis wData "s1".data Option.none prInsFail
        wTenv).result "analise_funil".data = some wFunVal ∧
     report_section? (execute_synchronized_analysis wData "s1".data Option.none prInsFail
        wTenv).result "insights_estrategicos".data = Option.none) :=
  ⟨C3_amended_stage_isolation.1 wData "s1".data wTenv prBaseFail wEnhVal wFunVal wInsVal
      "boom" wFallback wFallback wEnhVal wFunVal wInsVal rfl rfl rfl rfl rfl rfl rfl rfl
      rfl rfl rfl rfl rfl rfl rfl rfl,
   C3_amended_stage_isolation.2.1 wData "s1".data wTenv prEnhFail wBaseVal wFunVal wInsVal
      "boom" wBaseVal wFunVal wInsVal rfl rfl rfl rfl rfl rfl rfl rfl rfl rfl rfl rfl rfl rfl,
   C3_amended_stage_isolation.2.2.1 wData "s1".data wTenv prFunFail wBaseVal wEnhVal wInsVal
      "boom" wBaseVal wEnhVal wInsVal rfl rfl rfl rfl rfl rfl rfl rfl rfl rfl rfl rfl rfl rfl,
   C3_amended_stage_isolation.2.2.2 wData "s1".data wTenv prInsFail wBaseVal wEnhVal wFunVal
      "boom" wBaseVal wEnhVal wFunVal rfl rfl rfl rfl rfl rfl rfl rfl rfl rfl rfl rfl rfl rfl⟩

/-!
## Claim theorems: the report assembler
-/

/-- C8 (confirmed): for the request `{segmento: "Varejo", produto: "Curso X"}`
with every content provider succeeding — the base provider nominally
yielding the echoed request under `projeto_dados` and a web-research
section with a positive result count `n` — the assembled report's
executive summary shows `qualidade_analise = "PREMIUM"` and
`segmento_analisado = "Varejo"`, for any session id and clock. -/
theorem C8_premium_quality (n : Int) (sid nowIso nowFmt : PyStr) (hn : 0 < n) :
    (vGet? (generate_clean_report (c8_input n) (some sid) nowIso nowFmt)
        "relatorio_executivo".data).bind
      (fun re => vGet? re "qualidade_analise".data) = some (S "PREMIUM") ∧
    (vGet? (generate_clean_report (c8_input n) (some sid) nowIso nowFmt)
        "relatorio_executivo".data).bind
      (fun re => vGet? re "segmento_analisado".data) = some (S "Varejo") := by
  have hdec : decide (n > 0) = true := decide_eq_true hn
  have hclean : asDict (deep_clean_data (Val.dict (c8_input n))) = c8_input n := rfl
  have hex : extract_safe_data (c8_input n) =
      [("segmento".data, S "Varejo"), ("produto".data, S "Curso X"),
       ("has_research".data, Val.bool true), ("processing_time".data, S "N/A"),
       ("research_sources".data, Val.int n)] := by
    simp [extract_safe_data, pyGet?, pyGetD, pySet, pyHasKey, pyGtZero?, hdec, c8_input, S,
      Bind.bind, Except.bind]
  simp only [generate_clean_report, hclean, hex]
  constructor <;> rfl

/-- C8 (witness): the scenario at `n = 25` and a concrete session id
and clock. -/
theorem C8_premium_quality_witness :
    (vGet? (generate_clean_report (c8_input 25) (some "s1".data)
        "2025-01-01T00:00:00".data "01/01/2025 00:00:00".data)
        "relatorio_executivo".data).bind
      (fun re => vGet? re "qualidade_analise".data) = some (S "PREMIUM") ∧
    (vGet? (generate_clean_report (c8_input 25) (some "s1".data)
        "2025-01-01T00:00:00".data "01/01/2025 00:00:00".data)
        "relatorio_executivo".data).bind
      (fun re => vGet? re "segmento_analisado".data) = some (S "Varejo") :=
  C8_premium_quality 25 "s1".data "2025-01-01T00:00:00".data "01/01/2025 00:00:00".data
    (by decide)

end ARQV
